import Mathlib

/-!
Koryuu transcoder firmware: the control core of `main.cpp`.

A shallow embedding of `src/main.cpp` in its default build configuration
(`DEBUG = 0`, `CALIBRATE = 0`, `ENC_TEST_PATTERN = 0`, `AUTORESET = 1`,
`ERROR_PANIC = 1`, `DEC_TEST_PATTERN = 1`).

* The global variables of the translation unit, the pins it drives and the
  locals of `main` that live across loop iterations form one record, `State`.
* Everything the firmware does to the outside world is appended, in program
  order, to `State.bus`: bus writes (`I2C_WRITE`), bus reads (`I2C_READ_ONE`),
  busy-wait delays and the calls into the decoder driver class, whose bodies
  are not part of `main.cpp` and are therefore recorded as calls with their
  arguments.
* Values that come from the outside (bytes read from the bus, button edges,
  the interrupt line) are arguments of the function that reads them.
* Bus writes are taken to be acknowledged.  A write that is not acknowledged
  transfers control to `i2c_err_func`, which is embedded on its own below,
  together with the watchdog it arms and the reset the watchdog causes.
* `int` variables are `Int`; every increment in the source is guarded by an
  upper bound, so no 16-bit wrap-around can occur.  `uint8_t` values are `Nat`
  reduced modulo 256 where they are stored.
-/

namespace Koryuu

/-! ## Data model -/

/-- The anonymous enum of `interlace_status`. -/
inductive InterlaceStatus where
  | INTERLACE_STATUS_UNKNOWN
  | INTERLACE_STATUS_INTERLACED
  | INTERLACE_STATUS_PROGRESSIVE
deriving DecidableEq, Repr

/-- The anonymous enum of `freerun_status`. -/
inductive FreerunStatus where
  | FREERUN_STATUS_UNKNOWN
  | FREERUN_STATUS_RUNNING_FREE
  | FREERUN_STATUS_LOCKED
deriving DecidableEq, Repr

/-- The enumerators of `koryuu_settings::Input` that `main.cpp` imports. -/
inductive Input where
  | CVBS
  | CVBS_PEDESTAL
  | SVIDEO
  | SVIDEO_PEDESTAL
  | COMPONENT
deriving DecidableEq, Repr

/-- The enumerators of `koryuu_settings::PhysInput` that `main.cpp` imports. -/
inductive PhysInput where
  | INPUT_CVBS
  | INPUT_SVIDEO
  | INPUT_COMPONENT
deriving DecidableEq, Repr

/-- Input selections passed to `decoder.select_input`. -/
inductive InputSelect where
  | INSEL_CVBS_Ain1
  | INSEL_YC_Ain3_4
  | INSEL_YPbPr_Ain1_2_3
deriving DecidableEq, Repr

/-- Register sub-maps passed to `decoder.select_submap`. -/
inductive Submap where
  | DEC_SUBMAP_USER
  | DEC_SUBMAP_INTR_VDP
  | DEC_SUBMAP_0x80
deriving DecidableEq, Repr

/-- Calls into the decoder driver object, recorded with their arguments.  The
symbolic constants that occur with one value only (`AD_PALBGHID_NTSCJ_SECAM`,
`IDL_ACTIVE_LOW`, `ID_MUST_CLEAR`, `AB_SMOOTHEST`, `COAST_MODE_480I`) are part
of the constructor that stands for the call. -/
inductive DecoderCall where
  | set_power_management (a b : Bool)
  | select_autodetection_AD_PALBGHID_NTSCJ_SECAM
  | select_input (insel : InputSelect)
  | select_submap (m : Submap)
  | set_interrupt_mask1 (a b c d e : Bool)
  | interrupt_clear1 (a b c d e : Bool)
  | set_interrupt_mask2 (a b c d e : Bool)
  | interrupt_clear2 (a b c d e : Bool)
  | set_interrupt_mask3 (a b c d e f g : Bool)
  | interrupt_clear3 (a b c d e f g : Bool)
  | set_interrupt_config_IDL_ACTIVE_LOW_ID_MUST_CLEAR (b : Bool) (n : Nat) (e : Bool)
  | set_output_control (tristate vbi : Bool)
  | set_cti_dnr_control_AB_SMOOTHEST (a b d : Bool)
  | set_vs_mode_control_COAST_MODE_480I (a b : Bool)
deriving DecidableEq, Repr

/-- What the firmware does to the outside world, in program order. -/
inductive Event where
  | i2c_write (addr reg val : Nat)
  | i2c_write_unchecked (addr reg val : Nat)
  | i2c_read_one (addr reg val : Nat)
  | delay_ms (ms : Nat)
  | decoder (call : DecoderCall)
  | settings_write
  | wdt_enable_WDTO_4S
deriving DecidableEq, Repr

/-- Bus address given to the constructor of `decoder`. -/
def decoder_address : Nat := 0x20

/-- Bus address given to the constructor of `encoder`. -/
def encoder_address : Nat := 0x2a

/-- The mutable state of the firmware: globals, pins, the loop-carried locals
of `main`, and the record of bus traffic. -/
structure State where
  interlace_status : InterlaceStatus
  curr_input : Input
  pedestal_enabled : Bool
  component_output : Bool
  component_input : Bool
  rgb_color : Bool
  chroma_enabled : Bool
  mode_ire : Int
  led_timer1 : Int
  input_timer : Int
  noise_reduction : Int
  freerun_status : FreerunStatus
  disable_freerun : Bool
  led_CVBS : Bool
  led_YC : Bool
  led_OPT : Bool
  decoder_reset : Bool
  decoder_pwrdwn : Bool
  encoder_reset : Bool
  dec_status1 : Nat
  dec_vstd : Nat
  dec_status3 : Nat
  got_interrupt : Bool
  check_once_more : Bool
  bus : List Event
deriving DecidableEq, Repr

open InterlaceStatus FreerunStatus Input PhysInput InputSelect Submap

/-! ## Bus primitives -/

/-- Append one event to the record of bus traffic. -/
def emit (e : Event) (st : State) : State :=
  { st with bus := st.bus ++ [e] }

/-- The checked register write `I2C_WRITE(addr, reg, val)`. -/
def I2C_WRITE (addr reg val : Nat) (st : State) : State :=
  emit (Event.i2c_write addr reg val) st

/-- The register write `I2C_WRITE<false>(addr, reg, val)`, whose failure is
ignored. -/
def I2C_WRITE_unchecked (addr reg val : Nat) (st : State) : State :=
  emit (Event.i2c_write_unchecked addr reg val) st

/-- The register read `I2C_READ_ONE(addr, reg)`; `val` is the byte the device
answers with.  Returns the byte as a `uint8_t`. -/
def I2C_READ_ONE (addr reg val : Nat) (st : State) : State × Nat :=
  (emit (Event.i2c_read_one addr reg (val % 256)) st, val % 256)

/-- The busy wait `_delay_ms(ms)`. -/
def delay_ms (ms : Nat) (st : State) : State :=
  emit (Event.delay_ms ms) st

/-- A call of a method of the `decoder` object. -/
def decoder_call (c : DecoderCall) (st : State) : State :=
  emit (Event.decoder c) st

/-- The C test `!!(v & mask)`. -/
def bit_set (v mask : Nat) : Bool :=
  (v &&& mask) != 0

/-! ## Output policy -/

/-- The function `apply_output_settings`: returns the new state and the
value of `ret`. -/
def apply_output_settings (disable_outputs_on_freerun apply_decoder apply_encoder : Bool)
    (st : State) : State × Bool :=
  if disable_outputs_on_freerun && st.freerun_status != FREERUN_STATUS_LOCKED then
    let st1 := if apply_decoder then
        decoder_call (DecoderCall.set_output_control true true) st
      else st
    if apply_encoder then
      (I2C_WRITE encoder_address 0x00 0x01 st1, true)
    else
      (st1, false)
  else
    let st1 := if apply_decoder then
        decoder_call (DecoderCall.set_output_control false true) st
      else st
    let st2 := if apply_encoder then
        I2C_WRITE encoder_address 0x00 0x1e st1
      else st1
    (st2, false)

/-! ## Encoder setup and video range -/

/-- The function `setup_encoder(reset)`; `input_status` is the byte the decoder
answers when its register 0x13 is read. -/
def setup_encoder (reset : Bool) (input_status : Nat) (st : State) : State :=
  let st0 := if reset then
      delay_ms 1 (I2C_WRITE_unchecked encoder_address 0x17 0x07 st)
    else st
  let r := apply_output_settings st0.disable_freerun false true st0
  if r.2 then
    r.1
  else
    let st1 := I2C_WRITE encoder_address 0x10 0x10 r.1
    let st2 := I2C_WRITE encoder_address 0x88 0x04 st1
    let st3 := { st2 with noise_reduction := 0 }
    let rd := I2C_READ_ONE decoder_address 0x13 input_status st3
    let st4 := I2C_WRITE encoder_address 0x00 0x1C rd.1
    let st5 := I2C_WRITE encoder_address 0x01 0x00 st4
    let st6 := if bit_set rd.2 0x04 then
        I2C_WRITE encoder_address 0x80 0x71 st5
      else
        I2C_WRITE encoder_address 0x80 0x72 st5
    let st7 := if st6.component_output then
        I2C_WRITE encoder_address 0x82 0xC0 st6
      else
        I2C_WRITE encoder_address 0x82 0xC2 st6
    let st8 := if st7.rgb_color then
        I2C_WRITE encoder_address 0x02 0x54 st7
      else
        I2C_WRITE encoder_address 0x02 0x74 st7
    let st9 := I2C_WRITE encoder_address 0x83 0x76 st8
    let st10 := I2C_WRITE encoder_address 0x8C 0xCB st9
    let st11 := I2C_WRITE encoder_address 0x8D 0x8A st10
    let st12 := I2C_WRITE encoder_address 0x8E 0x09 st11
    I2C_WRITE encoder_address 0x8F 0x2A st12

/-- The four register writes of one `case` of `set_video_range`. -/
def video_range_case (b87 d02 bA1 b0B : Nat) (st : State) : State :=
  I2C_WRITE encoder_address 0x0B b0B
    (I2C_WRITE encoder_address 0xA1 bA1
      (I2C_WRITE decoder_address 0x02 d02
        (I2C_WRITE encoder_address 0x87 b87 st)))

/-- The function `set_video_range(ire_input_mode)`; its two other parameters
are not read by its body. -/
def set_video_range (ire_input_mode : Int) (st : State) : State :=
  match ire_input_mode with
  | 0 => video_range_case 0x00 0x04 0x00 0x00 st
  | 1 => video_range_case 0x08 0x04 0xF9 0x20 st
  | 2 => video_range_case 0x08 0x34 0x00 0x00 st
  | 3 => video_range_case 0x08 0x34 0xF9 0x20 st
  | 4 => video_range_case 0x08 0x34 0x71 0x40 st
  | 5 => video_range_case 0x08 0x34 0xEA 0x40 st
  | 6 => video_range_case 0x08 0x34 0x62 0x40 st
  | _ => st

/-! ## Full chip setup -/

set_option linter.unusedVariables false in
/-- The function `setup_video(input, pedestal, smoothing)`; `input_status` is
the byte read by the call of `setup_encoder` that ends it. -/
def setup_video (input : PhysInput) (pedestal smoothing : Bool) (input_status : Nat)
    (st : State) : State :=
  let a := st
    |> decoder_call (DecoderCall.set_power_management false true)
    |> I2C_WRITE_unchecked encoder_address 0x17 0x07
    |> decoder_call (DecoderCall.set_power_management false false)
    |> delay_ms 10
  let b := if input = INPUT_CVBS then
      I2C_WRITE decoder_address 0x52 0xcd a
    else
      I2C_WRITE decoder_address 0x53 0xce a
  let c := decoder_call DecoderCall.select_autodetection_AD_PALBGHID_NTSCJ_SECAM b
  let d := if input = INPUT_CVBS then
      decoder_call (DecoderCall.select_input INSEL_CVBS_Ain1) c
    else if input = INPUT_SVIDEO then
      decoder_call (DecoderCall.select_input INSEL_YC_Ain3_4) c
    else
      decoder_call (DecoderCall.select_input INSEL_YPbPr_Ain1_2_3) c
  let e := d
    |> decoder_call (DecoderCall.select_submap DEC_SUBMAP_INTR_VDP)
    |> decoder_call (DecoderCall.set_interrupt_mask1 true true true true false)
    |> decoder_call (DecoderCall.interrupt_clear1 true true true true false)
    |> decoder_call (DecoderCall.set_interrupt_mask2 false true false false false)
    |> decoder_call (DecoderCall.interrupt_clear2 true true true true false)
    |> decoder_call (DecoderCall.set_interrupt_mask3 true true true true true true false)
    |> decoder_call (DecoderCall.interrupt_clear3 true true true true true true false)
    |> decoder_call
        (DecoderCall.set_interrupt_config_IDL_ACTIVE_LOW_ID_MUST_CLEAR false 0x10 false)
    |> decoder_call (DecoderCall.select_submap DEC_SUBMAP_USER)
  let f := set_video_range e.mode_ire e
  let g := (apply_output_settings f.disable_freerun true false f).1
  let h := g
    |> I2C_WRITE decoder_address 0x13 0x00
    |> I2C_WRITE decoder_address 0x14 0x11
    |> I2C_WRITE decoder_address 0x15 0x60
    |> I2C_WRITE decoder_address 0x1d 0x40
    |> I2C_WRITE decoder_address 0x31 0x02
    |> decoder_call (DecoderCall.set_cti_dnr_control_AB_SMOOTHEST false false true)
    |> I2C_WRITE decoder_address 0x6b 0x14
    |> decoder_call (DecoderCall.set_vs_mode_control_COAST_MODE_480I true true)
    |> I2C_WRITE decoder_address 0x38 0xc0
    |> I2C_WRITE decoder_address 0x39 0xc0
    |> I2C_WRITE decoder_address 0x4d 0xCF
  setup_encoder false input_status h

/-! ## Main loop: input cycling -/

/-- Lines 694 to 738 of `main`: the poll of decoder register 0x10 and the
idle counter `input_timer`.  `activity` is the byte read from register 0x10,
`input_status` the byte read during `setup_video` when the input is switched. -/
def input_cycler (activity input_status : Nat) (st : State) : State :=
  let rd := I2C_READ_ONE decoder_address 0x10 activity st
  let s := rd.1
  if bit_set rd.2 0x01 then
    { s with input_timer := 0 }
  else if s.input_timer > 20 then
    let t := match s.curr_input with
      | CVBS =>
        let u := { s with interlace_status := INTERLACE_STATUS_UNKNOWN,
                          freerun_status := FREERUN_STATUS_UNKNOWN }
        let v := setup_video INPUT_SVIDEO u.pedestal_enabled false input_status u
        { v with curr_input := SVIDEO, led_CVBS := false, led_YC := true }
      | SVIDEO =>
        let u := { s with interlace_status := INTERLACE_STATUS_UNKNOWN,
                          freerun_status := FREERUN_STATUS_UNKNOWN }
        let v := setup_video INPUT_COMPONENT u.pedestal_enabled false input_status u
        { v with curr_input := COMPONENT, led_CVBS := true, led_YC := true }
      | COMPONENT =>
        let u := { s with interlace_status := INTERLACE_STATUS_UNKNOWN,
                          freerun_status := FREERUN_STATUS_UNKNOWN }
        let v := setup_video INPUT_CVBS u.pedestal_enabled false input_status u
        { v with curr_input := CVBS, led_CVBS := true, led_YC := false }
      | _ => s
    { t with input_timer := 0 }
  else
    { s with input_timer := s.input_timer + 1 }

/-! ## Main loop: colour kill, buttons, indicators -/

/-- Lines 740 to 751 of `main`: colour-kill tracking.  `status_a` and
`status_b` are the bytes answered to the two reads of register 0x10; the
second read happens only when the first test fails. -/
def chroma_stage (status_a status_b : Nat) (st : State) : State :=
  let rd := I2C_READ_ONE decoder_address 0x10 status_a st
  if bit_set rd.2 0x80 && rd.1.chroma_enabled == true then
    let s := I2C_WRITE encoder_address 0x84 0x10 rd.1
    { s with chroma_enabled := false, led_OPT := true }
  else
    let rd2 := I2C_READ_ONE decoder_address 0x10 status_b rd.1
    if (!bit_set rd2.2 0x80) && rd2.1.chroma_enabled == false then
      let s := I2C_WRITE encoder_address 0x84 0x00 rd2.1
      { s with chroma_enabled := true, led_OPT := false }
    else
      rd2.1

/-- Lines 754 to 778 of `main`: the input-change button alone steps the
noise-reduction setting. -/
def noise_reduction_stage (input_change_pressed option_pressed : Bool) (st : State) : State :=
  if input_change_pressed && !option_pressed then
    match st.noise_reduction with
    | 0 =>
      let s := st |> I2C_WRITE decoder_address 0x4d 0xEF |> I2C_WRITE encoder_address 0x88 0x04
      { s with noise_reduction := 1 }
    | 1 =>
      let s := st |> I2C_WRITE decoder_address 0x4d 0xCF |> I2C_WRITE encoder_address 0x88 0x24
      { s with noise_reduction := 2 }
    | 2 =>
      let s := st |> I2C_WRITE decoder_address 0x4d 0xEF |> I2C_WRITE encoder_address 0x88 0x24
      { s with noise_reduction := 3 }
    | 3 =>
      let s := st |> I2C_WRITE decoder_address 0x4d 0xCF |> I2C_WRITE encoder_address 0x88 0x04
      { s with noise_reduction := 0 }
    | _ => st
  else st

/-- Lines 780 to 800 of `main`: the option button alone steps `mode_ire`. -/
def option_stage (input_change_pressed option_pressed : Bool) (input_status : Nat)
    (st : State) : State :=
  if (!input_change_pressed) && option_pressed then
    let s := if st.mode_ire < 5 then
        { st with mode_ire := st.mode_ire + 1 }
      else
        let t := { st with mode_ire := 0, rgb_color := !st.rgb_color }
        if t.rgb_color then
          I2C_WRITE encoder_address 0x02 0x54 t
        else
          I2C_WRITE encoder_address 0x02 0x74 t
    setup_encoder false input_status (set_video_range s.mode_ire s)
  else st

/-- Lines 802 to 825 of `main`: both buttons together toggle
`component_output`. -/
def output_format_stage (input_change_pressed option_pressed : Bool) (input_status : Nat)
    (st : State) : State :=
  if input_change_pressed && option_pressed then
    let s := if st.component_output then
        let t := { st with component_output := false }
        if t.curr_input = SVIDEO then
          { t with led_YC := true, led_CVBS := false }
        else
          { t with led_YC := false, led_CVBS := true }
      else
        { st with component_output := true }
    setup_encoder false input_status s
  else st

/-- Lines 827 to 839 of `main`: indicator blinking while component output is
selected. -/
def led_stage (st : State) : State :=
  if st.component_output then
    if st.curr_input = SVIDEO then
      { st with led_CVBS := false, led_YC := !st.led_YC }
    else
      { st with led_CVBS := !st.led_CVBS, led_YC := false }
  else st

/-! ## Main loop: status reconciliation -/

/-- Lines 936 to 1007 of `main`: the video standard.  The second component is
`encoder_setup_needed`. -/
def video_standard_step (new_status1 : Nat) (p : State × Bool) : State × Bool :=
  let q :=
    if new_status1 != p.1.dec_status1 then
      let new_vstd := (new_status1 >>> 4) &&& 0x07
      let s := if p.1.dec_vstd != 0xff then
          { p.1 with dec_vstd := (p.1.dec_status1 >>> 4) &&& 0x07 }
        else p.1
      if s.dec_vstd == 0xff || new_vstd != s.dec_vstd then
        ({ s with dec_vstd := new_vstd }, true)
      else
        (s, p.2)
    else p
  ({ q.1 with dec_status1 := new_status1 }, q.2)

/-- Lines 1029 to 1048 of `main`: the snapshot of status register 3. -/
def status3_step (new_status3 : Nat) (p : State × Bool) : State × Bool :=
  ({ p.1 with dec_status3 := new_status3 }, p.2)

/-- Lines 1049 to 1064 of `main`: lock and free-run classification.  The
second component is `encoder_setup_needed`. -/
def freerun_step (p : State × Bool) : State × Bool :=
  let lock_flag := bit_set p.1.dec_status1 0x01
  let freerun_flag := bit_set p.1.dec_status3 0x10
  if freerun_flag != (p.1.freerun_status == FREERUN_STATUS_RUNNING_FREE) ||
      p.1.freerun_status == FREERUN_STATUS_UNKNOWN then
    let s := { p.1 with freerun_status :=
      if freerun_flag then FREERUN_STATUS_RUNNING_FREE
      else if lock_flag then FREERUN_STATUS_LOCKED
      else FREERUN_STATUS_UNKNOWN }
    ((apply_output_settings s.disable_freerun true false s).1, true)
  else p

/-- Lines 1051 and 1065 to 1075 of `main`: interlace classification.  The
second component is `encoder_setup_needed`. -/
def interlace_step (p : State × Bool) : State × Bool :=
  let ilace_flag := bit_set p.1.dec_status3 0x40
  if ilace_flag && p.1.interlace_status != INTERLACE_STATUS_INTERLACED then
    ({ p.1 with interlace_status := INTERLACE_STATUS_INTERLACED }, true)
  else if (!ilace_flag) && p.1.interlace_status != INTERLACE_STATUS_PROGRESSIVE then
    ({ p.1 with interlace_status := INTERLACE_STATUS_PROGRESSIVE }, true)
  else p

/-- Lines 929 to 1075 of `main`: the two status reads and the three
classification steps.  Returns the state and the value `encoder_setup_needed`
has when line 1077 tests it. -/
def reconcile_classify (new_status1 new_status3 : Nat) (st : State) : State × Bool :=
  let rd1 := I2C_READ_ONE decoder_address 0x10 new_status1 st
  let rd3 := I2C_READ_ONE decoder_address 0x13 new_status3 rd1.1
  interlace_step (freerun_step (status3_step rd3.2 (video_standard_step rd1.2 (rd3.1, false))))

/-- Lines 1080 to 1088 of `main`: clearing the decoder interrupt flags. -/
def clear_interrupts (st : State) : State :=
  st
    |> decoder_call (DecoderCall.select_submap DEC_SUBMAP_INTR_VDP)
    |> decoder_call (DecoderCall.interrupt_clear1 true true true true false)
    |> decoder_call (DecoderCall.interrupt_clear2 true true true true false)
    |> decoder_call (DecoderCall.interrupt_clear3 true true true true true true false)
    |> decoder_call (DecoderCall.select_submap DEC_SUBMAP_USER)

/-- Lines 929 to 1092 of `main`: the body of the reconciler block.
`input_status` is the byte read by `setup_encoder` when it is called. -/
def reconcile (new_status1 new_status3 input_status : Nat) (st : State) : State :=
  let p := reconcile_classify new_status1 new_status3 st
  let s := if p.2 then setup_encoder false input_status p.1 else p.1
  let t := if s.got_interrupt then clear_interrupts s else s
  { t with check_once_more := t.got_interrupt }

/-- Lines 897 to 1093 of `main`: the interrupt line is sampled (`intrq` is the
level of the pin) and the reconciler block is entered on its condition. -/
def reconciler_stage (intrq : Bool) (new_status1 new_status3 input_status : Nat)
    (st : State) : State :=
  let s := { st with got_interrupt := !intrq }
  if s.got_interrupt || s.check_once_more ||
      s.interlace_status == INTERLACE_STATUS_UNKNOWN ||
      s.freerun_status == FREERUN_STATUS_UNKNOWN then
    reconcile new_status1 new_status3 input_status s
  else s

/-! ## Main loop -/

/-- What one pass of the main loop receives from outside: button edges, the
interrupt line and the bytes answered to its bus reads, in program order. -/
structure LoopInput where
  input_change_pressed : Bool
  option_pressed : Bool
  activity_status1 : Nat
  cycler_input_status : Nat
  chroma_status1_a : Nat
  chroma_status1_b : Nat
  button_input_status : Nat
  intrq : Bool
  new_status1 : Nat
  new_status3 : Nat
  reconciler_input_status : Nat
deriving DecidableEq, Repr

/-- One pass of the `while (1)` loop of `main`, lines 691 to 1094. -/
def main_loop_body (i : LoopInput) (st : State) : State :=
  st
    |> input_cycler i.activity_status1 i.cycler_input_status
    |> chroma_stage i.chroma_status1_a i.chroma_status1_b
    |> noise_reduction_stage i.input_change_pressed i.option_pressed
    |> option_stage i.input_change_pressed i.option_pressed i.button_input_status
    |> output_format_stage i.input_change_pressed i.option_pressed i.button_input_status
    |> led_stage
    |> reconciler_stage i.intrq i.new_status1 i.new_status3 i.reconciler_input_status
    |> delay_ms 10

/-- Consecutive passes of the main loop, one per element of the list. -/
def main_loop : List LoopInput → State → State
  | [], st => st
  | i :: rest, st => main_loop rest (main_loop_body i st)

/-! ## Startup -/

/-- The fields of `settings.settings` that `main` reads. -/
structure ConvSettings where
  default_input : Input
  smoothing : Bool
  disable_free_run : Bool
deriving DecidableEq, Repr

/-- What the `KoryuuSettings` object answers after loading: the record and
the results of `is_dirty()` and `is_downgrading()`. -/
structure KoryuuSettings where
  settings : ConvSettings
  is_dirty : Bool
  is_downgrading : Bool
deriving DecidableEq, Repr

/-- Modelled from the spec: the table `input_to_phys` of `koryuu_settings.hh`,
which maps the logical input selector to the physical input; the pedestal
variants of CVBS and S-Video share the physical input of the plain ones. -/
def input_to_phys : Input → PhysInput
  | CVBS => INPUT_CVBS
  | CVBS_PEDESTAL => INPUT_CVBS
  | SVIDEO => INPUT_SVIDEO
  | SVIDEO_PEDESTAL => INPUT_SVIDEO
  | COMPONENT => INPUT_COMPONENT

/-- Modelled from the spec: the table `input_to_pedestal` of
`koryuu_settings.hh`, true exactly for the pedestal variants of the logical
input selector. -/
def input_to_pedestal : Input → Bool
  | CVBS_PEDESTAL => true
  | SVIDEO_PEDESTAL => true
  | _ => false

/-- The values the globals have from their initialisers, with pins low and no
bus traffic yet.  `curr_input`, which has no initialiser, and the locals of
`main` are assigned by `main_startup` before they are first read. -/
def power_on : State :=
  { interlace_status := INTERLACE_STATUS_UNKNOWN
    curr_input := CVBS
    pedestal_enabled := false
    component_output := true
    component_input := true
    rgb_color := true
    chroma_enabled := true
    mode_ire := 0
    led_timer1 := 0
    input_timer := 0
    noise_reduction := 0
    freerun_status := FREERUN_STATUS_UNKNOWN
    disable_freerun := false
    led_CVBS := false
    led_YC := false
    led_OPT := false
    decoder_reset := false
    decoder_pwrdwn := false
    encoder_reset := false
    dec_status1 := 0
    dec_vstd := 0
    dec_status3 := 0
    got_interrupt := false
    check_once_more := false
    bus := [] }

/-- Lines 627 to 646 of `main`: the settings are written back when they are
dirty and were not loaded from a newer version. -/
def settings_writeback (settings : KoryuuSettings) (st : State) : State :=
  if settings.is_dirty && !settings.is_downgrading then
    emit Event.settings_write st
  else st

/-- Lines 536 to 689 of `main`: everything before the main loop.
`input_status` is the byte read by `setup_encoder` during `setup_video`.
The watchdog, timer, pin-mode and bus initialisation, which touch none of the
variables of `State`, are left out. -/
def main_startup (settings : KoryuuSettings) (input_status : Nat) : State :=
  let a := delay_ms 100 power_on
  let b := { a with led_CVBS := false, led_YC := false, led_OPT := false }
  let c := delay_ms 10 { b with decoder_pwrdwn := true, encoder_reset := true }
  let d := delay_ms 10 { c with decoder_reset := true, encoder_reset := false }
  let e := { d with encoder_reset := true }
  let f := settings_writeback settings e
  let g := { f with curr_input := COMPONENT,
                    disable_freerun := settings.settings.disable_free_run }
  let h := setup_video (input_to_phys g.curr_input) (input_to_pedestal g.curr_input)
    settings.settings.smoothing input_status g
  let k := { h with led_CVBS := decide (input_to_phys h.curr_input = INPUT_CVBS),
                    led_YC := decide (input_to_phys h.curr_input = INPUT_SVIDEO),
                    led_OPT := settings.settings.smoothing }
  let l := { k with dec_status1 := 0x00, dec_vstd := 0xff, dec_status3 := 0x00,
                    got_interrupt := false, check_once_more := true }
  l
    |> I2C_WRITE decoder_address 0x19 0xf0
    |> I2C_WRITE decoder_address 0x17 0x59
    |> I2C_WRITE decoder_address 0x3d 0x32

/-- The program: startup followed by the passes of the main loop. -/
def main (settings : KoryuuSettings) (input_status : Nat) (inputs : List LoopInput) : State :=
  main_loop inputs (main_startup settings input_status)

/-! ## Fault handler -/

/-- The policy the output stage follows: outputs are disabled when the flag is
set and the decoder is not locked. -/
def outputs_disabled (d : Bool) (L : FreerunStatus) : Bool :=
  d && L != FREERUN_STATUS_LOCKED

/-- The classification of a snapshot as the data model words it: running free
if the free-run bit of status register 3 is set, else locked if the lock bit
of status register 1 is set, else unknown. -/
def lock_classification (status1 status3 : Nat) : FreerunStatus :=
  if bit_set status3 0x10 then FREERUN_STATUS_RUNNING_FREE
  else if bit_set status1 0x01 then FREERUN_STATUS_LOCKED
  else FREERUN_STATUS_UNKNOWN

/-- The interlace state a snapshot stands for. -/
def interlace_classification (status3 : Nat) : InterlaceStatus :=
  if bit_set status3 0x40 then INTERLACE_STATUS_INTERLACED else INTERLACE_STATUS_PROGRESSIVE

/-- A settings record as loaded from a valid store. -/
def sample_settings : KoryuuSettings :=
  { settings := { default_input := CVBS, smoothing := false, disable_free_run := false }
    is_dirty := false
    is_downgrading := false }

/-- A pass of the main loop with no button pressed, the interrupt line at
the given level and every read of a status register answered by the given
bytes. -/
def plain_pass (intrq : Bool) (status1 status3 : Nat) : LoopInput :=
  { input_change_pressed := false
    option_pressed := false
    activity_status1 := status1
    cycler_input_status := status3
    chroma_status1_a := status1
    chroma_status1_b := status1
    button_input_status := status3
    intrq := intrq
    new_status1 := status1
    new_status3 := status3
    reconciler_input_status := status3 }

/-- The cyclic order of the physical inputs: CVBS, S-Video, component, and
back to CVBS.  The pedestal variants of the selector are outside the cycle. -/
def cyclic_successor : Input → Option Input
  | CVBS => some SVIDEO
  | SVIDEO => some COMPONENT
  | COMPONENT => some CVBS
  | _ => none

/-- The signal-activity test of the input cycler on the byte it reads. -/
def activity_absent (i : LoopInput) : Prop :=
  bit_set i.activity_status1 0x01 = false

/-- The 3-bit video-standard field of status register 1: bits 4 to 6. -/
def standard_field (status1 : Nat) : Nat :=
  (status1 / 16) % 8

/-! ## Auxiliary definitions for the proofs -/

/-- The bus record after `apply_output_settings`. -/
def apply_output_settings_bus (d ad ae : Bool) (st : State) : List Event :=
  (apply_output_settings d ad ae st).1.bus

/-- The bus record after `setup_encoder`. -/
def setup_encoder_bus (reset : Bool) (input_status : Nat) (st : State) : List Event :=
  (setup_encoder reset input_status st).bus

/-- The value of `noise_reduction` after `setup_encoder`. -/
def setup_encoder_noise_reduction (reset : Bool) (input_status : Nat) (st : State) : Int :=
  (setup_encoder reset input_status st).noise_reduction

/-- The bus record after `set_video_range`. -/
def set_video_range_bus (m : Int) (st : State) : List Event :=
  (set_video_range m st).bus

/-- The bus record after `setup_video`. -/
def setup_video_bus (input : PhysInput) (pedestal smoothing : Bool) (input_status : Nat)
    (st : State) : List Event :=
  (setup_video input pedestal smoothing input_status st).bus

/-- The value of `noise_reduction` after `setup_video`. -/
def setup_video_noise_reduction (input : PhysInput) (pedestal smoothing : Bool)
    (input_status : Nat) (st : State) : Int :=
  (setup_video input pedestal smoothing input_status st).noise_reduction

/-- Recognises the event of a settings write-back. -/
def is_settings_write : Event → Bool
  | Event.settings_write => true
  | _ => false

/-- The part of the state the chip set-up routines cannot change: every
variable but `noise_reduction`, and of the bus record the settings writes
only. -/
def skeleton (st : State) : State :=
  { st with bus := st.bus.filter is_settings_write, noise_reduction := 0 }

/-- The bus record after `freerun_step`. -/
def freerun_step_bus (p : State × Bool) : List Event :=
  (freerun_step p).1.bus

/-- The bus record after `reconcile_classify`. -/
def reconcile_classify_bus (new_status1 new_status3 : Nat) (st : State) : List Event :=
  (reconcile_classify new_status1 new_status3 st).1.bus

/-- The bus record after `reconcile`. -/
def reconcile_bus (n1 n3 input_status : Nat) (st : State) : List Event :=
  (reconcile n1 n3 input_status st).bus

/-- The value of `noise_reduction` after `reconcile`. -/
def reconcile_noise_reduction (n1 n3 input_status : Nat) (st : State) : Int :=
  (reconcile n1 n3 input_status st).noise_reduction

/-- The events `apply_output_settings` appends to the bus record. -/
def apply_output_settings_events (d ad ae : Bool) (L : FreerunStatus) : List Event :=
  (if ad then [Event.decoder (DecoderCall.set_output_control (outputs_disabled d L) true)]
    else []) ++
  (if ae then [Event.i2c_write encoder_address 0x00 (if outputs_disabled d L then 0x01 else 0x1e)]
    else [])

/-- The events one `case` of `set_video_range` appends to the bus record. -/
def video_range_case_events (b87 d02 bA1 b0B : Nat) : List Event :=
  [Event.i2c_write encoder_address 0x87 b87, Event.i2c_write decoder_address 0x02 d02,
   Event.i2c_write encoder_address 0xA1 bA1, Event.i2c_write encoder_address 0x0B b0B]

/-- The events `set_video_range` appends to the bus record. -/
def set_video_range_events (m : Int) : List Event :=
  if m = 0 then video_range_case_events 0x00 0x04 0x00 0x00
  else if m = 1 then video_range_case_events 0x08 0x04 0xF9 0x20
  else if m = 2 then video_range_case_events 0x08 0x34 0x00 0x00
  else if m = 3 then video_range_case_events 0x08 0x34 0xF9 0x20
  else if m = 4 then video_range_case_events 0x08 0x34 0x71 0x40
  else if m = 5 then video_range_case_events 0x08 0x34 0xEA 0x40
  else if m = 6 then video_range_case_events 0x08 0x34 0x62 0x40
  else []

/-- The events `setup_encoder` appends to the bus record. -/
def setup_encoder_events (reset : Bool) (input_status : Nat) (st : State) : List Event :=
  (if reset then [Event.i2c_write_unchecked encoder_address 0x17 0x07, Event.delay_ms 1]
    else []) ++
  (if outputs_disabled st.disable_freerun st.freerun_status then
    [Event.i2c_write encoder_address 0x00 0x01]
  else
    [Event.i2c_write encoder_address 0x00 0x1e,
     Event.i2c_write encoder_address 0x10 0x10,
     Event.i2c_write encoder_address 0x88 0x04,
     Event.i2c_read_one decoder_address 0x13 (input_status % 256),
     Event.i2c_write encoder_address 0x00 0x1C,
     Event.i2c_write encoder_address 0x01 0x00,
     Event.i2c_write encoder_address 0x80 (if bit_set (input_status % 256) 0x04 then 0x71 else 0x72),
     Event.i2c_write encoder_address 0x82 (if st.component_output then 0xC0 else 0xC2),
     Event.i2c_write encoder_address 0x02 (if st.rgb_color then 0x54 else 0x74),
     Event.i2c_write encoder_address 0x83 0x76,
     Event.i2c_write encoder_address 0x8C 0xCB,
     Event.i2c_write encoder_address 0x8D 0x8A,
     Event.i2c_write encoder_address 0x8E 0x09,
     Event.i2c_write encoder_address 0x8F 0x2A])

/-- The decoder input `setup_video` selects for a physical input. -/
def input_selection : PhysInput → InputSelect
  | INPUT_CVBS => INSEL_CVBS_Ain1
  | INPUT_SVIDEO => INSEL_YC_Ain3_4
  | INPUT_COMPONENT => INSEL_YPbPr_Ain1_2_3

/-- The events `setup_video` appends to the bus record. -/
def setup_video_events (input : PhysInput) (input_status : Nat) (st : State) : List Event :=
  [Event.decoder (DecoderCall.set_power_management false true),
   Event.i2c_write_unchecked encoder_address 0x17 0x07,
   Event.decoder (DecoderCall.set_power_management false false),
   Event.delay_ms 10,
   (if input = INPUT_CVBS then Event.i2c_write decoder_address 0x52 0xcd
    else Event.i2c_write decoder_address 0x53 0xce),
   Event.decoder DecoderCall.select_autodetection_AD_PALBGHID_NTSCJ_SECAM,
   Event.decoder (DecoderCall.select_input (input_selection input)),
   Event.decoder (DecoderCall.select_submap DEC_SUBMAP_INTR_VDP),
   Event.decoder (DecoderCall.set_interrupt_mask1 true true true true false),
   Event.decoder (DecoderCall.interrupt_clear1 true true true true false),
   Event.decoder (DecoderCall.set_interrupt_mask2 false true false false false),
   Event.decoder (DecoderCall.interrupt_clear2 true true true true false),
   Event.decoder (DecoderCall.set_interrupt_mask3 true true true true true true false),
   Event.decoder (DecoderCall.interrupt_clear3 true true true true true true false),
   Event.decoder (DecoderCall.set_interrupt_config_IDL_ACTIVE_LOW_ID_MUST_CLEAR false 0x10 false),
   Event.decoder (DecoderCall.select_submap DEC_SUBMAP_USER)] ++
  set_video_range_events st.mode_ire ++
  [Event.decoder (DecoderCall.set_output_control
      (outputs_disabled st.disable_freerun st.freerun_status) true),
   Event.i2c_write decoder_address 0x13 0x00,
   Event.i2c_write decoder_address 0x14 0x11,
   Event.i2c_write decoder_address 0x15 0x60,
   Event.i2c_write decoder_address 0x1d 0x40,
   Event.i2c_write decoder_address 0x31 0x02,
   Event.decoder (DecoderCall.set_cti_dnr_control_AB_SMOOTHEST false false true),
   Event.i2c_write decoder_address 0x6b 0x14,
   Event.decoder (DecoderCall.set_vs_mode_control_COAST_MODE_480I true true),
   Event.i2c_write decoder_address 0x38 0xc0,
   Event.i2c_write decoder_address 0x39 0xc0,
   Event.i2c_write decoder_address 0x4d 0xCF] ++
  setup_encoder_events false input_status st

/-- Recognises the event of a decoder input selection. -/
def is_select_input : Event → Bool
  | Event.decoder (DecoderCall.select_input _) => true
  | _ => false

/-- The test of lines 1053 to 1055 of `main` on the byte read from status
register 3: the lock state is recomputed when the free-run bit disagrees with
it or it is unknown. -/
def lock_recomputed (st : State) (new_status3 : Nat) : Bool :=
  (bit_set (new_status3 % 256) 0x10 != (st.freerun_status == FREERUN_STATUS_RUNNING_FREE)) ||
    st.freerun_status == FREERUN_STATUS_UNKNOWN

/-- The events `clear_interrupts` appends to the bus record. -/
def clear_interrupts_events : List Event :=
  [Event.decoder (DecoderCall.select_submap DEC_SUBMAP_INTR_VDP),
   Event.decoder (DecoderCall.interrupt_clear1 true true true true false),
   Event.decoder (DecoderCall.interrupt_clear2 true true true true false),
   Event.decoder (DecoderCall.interrupt_clear3 true true true true true true false),
   Event.decoder (DecoderCall.select_submap DEC_SUBMAP_USER)]

/-- What the reconciler reads when the decoder reports neither free-run nor
lock. -/
def neither_freerun_nor_lock (i : LoopInput) : Prop :=
  bit_set i.new_status3 0x10 = false ∧ bit_set i.new_status1 0x01 = false

/-- The state in which the reconciler stage of a pass of the main loop is
entered: lines 691 to 839 of `main`. -/
def before_reconciler (i : LoopInput) (st : State) : State :=
  st
    |> input_cycler i.activity_status1 i.cycler_input_status
    |> chroma_stage i.chroma_status1_a i.chroma_status1_b
    |> noise_reduction_stage i.input_change_pressed i.option_pressed
    |> option_stage i.input_change_pressed i.option_pressed i.button_input_status
    |> output_format_stage i.input_change_pressed i.option_pressed i.button_input_status
    |> led_stage

/-- A pass of the main loop in which the option button alone was pressed. -/
def option_press (status1 status3 : Nat) : LoopInput :=
  { plain_pass true status1 status3 with option_pressed := true }

/-- A pass of the main loop in which both buttons were pressed. -/
def both_press (status1 status3 : Nat) : LoopInput :=
  { plain_pass true status1 status3 with input_change_pressed := true, option_pressed := true }

/-- Recognises the register write that only the seventh case of
`set_video_range` performs: 0x62 to encoder register 0xA1. -/
def is_mode7_write (e : Event) : Bool :=
  decide (e = Event.i2c_write encoder_address 0xA1 0x62)

/-- The invariant of the display mode: `mode_ire` lies in 0..5 and the bus
record holds no write of the seventh case of `set_video_range`. -/
def mode_in_range (st : State) : Prop :=
  0 ≤ st.mode_ire ∧ st.mode_ire ≤ 5 ∧ st.bus.filter is_mode7_write = []

/-- The state with the option indicator blanked. -/
def without_led_OPT (st : State) : State :=
  { st with led_OPT := false }

/-- A settings record that asks for outputs to be disabled while the decoder
is not locked. -/
def strict_settings : KoryuuSettings :=
  { settings := { default_input := CVBS, smoothing := false, disable_free_run := true }
    is_dirty := false
    is_downgrading := false }

/-- What a press of the option button alone does to the pair of `mode_ire`
and `rgb_color`: lines 781 to 788 of `main`. -/
def option_press_step (p : Int × Bool) : Int × Bool :=
  (if p.1 < 5 then p.1 + 1 else 0, if p.1 < 5 then p.2 else !p.2)

/-! ## Frame lemmas: what the chip set-up routines leave alone -/

theorem skeleton_emit (e : Event) (st : State) (h : is_settings_write e = false) :
    skeleton (emit e st) = skeleton st := by
  simp [skeleton, emit, List.filter_append, h]

@[simp]
theorem skeleton_I2C_WRITE (a r v : Nat) (st : State) :
    skeleton (I2C_WRITE a r v st) = skeleton st :=
  skeleton_emit _ _ rfl

@[simp]
theorem skeleton_I2C_WRITE_unchecked (a r v : Nat) (st : State) :
    skeleton (I2C_WRITE_unchecked a r v st) = skeleton st :=
  skeleton_emit _ _ rfl

@[simp]
theorem skeleton_I2C_READ_ONE (a r v : Nat) (st : State) :
    skeleton (I2C_READ_ONE a r v st).1 = skeleton st :=
  skeleton_emit _ _ rfl

@[simp]
theorem skeleton_delay_ms (n : Nat) (st : State) :
    skeleton (delay_ms n st) = skeleton st :=
  skeleton_emit _ _ rfl

@[simp]
theorem skeleton_decoder_call (c : DecoderCall) (st : State) :
    skeleton (decoder_call c st) = skeleton st :=
  skeleton_emit _ _ rfl

@[simp]
theorem skeleton_noise_reduction (n : Int) (st : State) :
    skeleton { st with noise_reduction := n } = skeleton st := rfl

@[simp]
theorem skeleton_apply_output_settings (d ad ae : Bool) (st : State) :
    skeleton (apply_output_settings d ad ae st).1 = skeleton st := by
  unfold apply_output_settings
  split_ifs <;> simp

@[simp]
theorem skeleton_setup_encoder (reset : Bool) (input_status : Nat) (st : State) :
    skeleton (setup_encoder reset input_status st) = skeleton st := by
  unfold setup_encoder
  lift_lets
  intro st0 r st1 st2 st3 rd st4 st5 st6 st7 st8 st9 st10 st11 st12
  have e0 : skeleton st0 = skeleton st := by
    simp only [st0]; split_ifs <;> simp
  have er : skeleton r.1 = skeleton st := (skeleton_apply_output_settings _ _ _ _).trans e0
  have e5 : skeleton st5 = skeleton st := by
    simp [st5, st4, rd, st3, st2, st1, er]
  have e6 : skeleton st6 = skeleton st := by
    simp only [st6]; split_ifs <;> simp [e5]
  have e7 : skeleton st7 = skeleton st := by
    simp only [st7]; split_ifs <;> simp [e6]
  have e8 : skeleton st8 = skeleton st := by
    simp only [st8]; split_ifs <;> simp [e7]
  split_ifs
  · exact er
  · simp [st12, st11, st10, st9, e8]

@[simp]
theorem skeleton_set_video_range (m : Int) (st : State) :
    skeleton (set_video_range m st) = skeleton st := by
  unfold set_video_range
  split <;> simp [video_range_case]

@[simp]
theorem skeleton_setup_video (input : PhysInput) (pedestal smoothing : Bool)
    (input_status : Nat) (st : State) :
    skeleton (setup_video input pedestal smoothing input_status st) = skeleton st := by
  unfold setup_video
  lift_lets
  intro a b c d e f g h
  have ea : skeleton a = skeleton st := by simp [a]
  have eb : skeleton b = skeleton st := by
    simp only [b]; split_ifs <;> simp [ea]
  have ed : skeleton d = skeleton st := by
    simp only [d]; split_ifs <;> simp [c, eb]
  simp [h, g, f, e, ed]

@[simp]
theorem skeleton_clear_interrupts (st : State) :
    skeleton (clear_interrupts st) = skeleton st := by
  simp [clear_interrupts]

/-- A state with the skeleton of `st` is `st` with another bus record and
another noise-reduction setting. -/
theorem eq_of_skeleton {s st : State} (h : skeleton s = skeleton st) :
    s = { st with bus := s.bus, noise_reduction := s.noise_reduction } := by
  cases s
  cases st
  simp only [skeleton, State.mk.injEq] at h
  simp only [State.mk.injEq]
  tauto

theorem bit_set_mod_256 (v mask : Nat) (h : mask < 256) :
    bit_set (v % 256) mask = bit_set v mask := by
  have e : (v % 256) &&& mask = v &&& mask := by
    have h1 : v % 256 = v &&& 255 := (Nat.and_pow_two_sub_one_eq_mod v 8).symm
    have h2 : mask = 255 &&& mask := by
      rw [Nat.land_comm]
      exact ((Nat.and_pow_two_sub_one_eq_mod mask 8).trans (Nat.mod_eq_of_lt h)).symm
    rw [h1, Nat.land_assoc, ← h2]
  simp [bit_set, e]

/-- The settings writes of a bus record are those of the skeleton. -/
theorem filter_of_skeleton {s st : State} (h : skeleton s = skeleton st) :
    s.bus.filter is_settings_write = st.bus.filter is_settings_write :=
  congrArg State.bus h

theorem apply_output_settings_fst (d ad ae : Bool) (st : State) :
    (apply_output_settings d ad ae st).1 =
      { st with bus := apply_output_settings_bus d ad ae st } := by
  have h := eq_of_skeleton (skeleton_apply_output_settings d ad ae st)
  have n : (apply_output_settings d ad ae st).1.noise_reduction = st.noise_reduction := by
    unfold apply_output_settings
    split_ifs <;> rfl
  rw [n] at h
  exact h

theorem setup_encoder_eq (reset : Bool) (input_status : Nat) (st : State) :
    setup_encoder reset input_status st =
      { st with bus := setup_encoder_bus reset input_status st,
                noise_reduction := setup_encoder_noise_reduction reset input_status st } :=
  eq_of_skeleton (skeleton_setup_encoder reset input_status st)

theorem set_video_range_eq (m : Int) (st : State) :
    set_video_range m st = { st with bus := set_video_range_bus m st } := by
  have h := eq_of_skeleton (skeleton_set_video_range m st)
  have n : (set_video_range m st).noise_reduction = st.noise_reduction := by
    unfold set_video_range
    split <;> simp [video_range_case, I2C_WRITE, emit]
  rw [n] at h
  exact h

theorem setup_video_eq (input : PhysInput) (pedestal smoothing : Bool) (input_status : Nat)
    (st : State) :
    setup_video input pedestal smoothing input_status st =
      { st with bus := setup_video_bus input pedestal smoothing input_status st,
                noise_reduction :=
                  setup_video_noise_reduction input pedestal smoothing input_status st } :=
  eq_of_skeleton (skeleton_setup_video input pedestal smoothing input_status st)

theorem apply_output_settings_bus_filter (d ad ae : Bool) (st : State) :
    (apply_output_settings_bus d ad ae st).filter is_settings_write =
      st.bus.filter is_settings_write :=
  filter_of_skeleton (skeleton_apply_output_settings d ad ae st)

theorem setup_encoder_bus_filter (reset : Bool) (input_status : Nat) (st : State) :
    (setup_encoder_bus reset input_status st).filter is_settings_write =
      st.bus.filter is_settings_write :=
  filter_of_skeleton (skeleton_setup_encoder reset input_status st)

theorem set_video_range_bus_filter (m : Int) (st : State) :
    (set_video_range_bus m st).filter is_settings_write = st.bus.filter is_settings_write :=
  filter_of_skeleton (skeleton_set_video_range m st)

theorem setup_video_bus_filter (input : PhysInput) (pedestal smoothing : Bool)
    (input_status : Nat) (st : State) :
    (setup_video_bus input pedestal smoothing input_status st).filter is_settings_write =
      st.bus.filter is_settings_write :=
  filter_of_skeleton (skeleton_setup_video input pedestal smoothing input_status st)

/-! ## The steps of the reconciler -/

theorem vstd_field_ne_sentinel (x : Nat) : (x >>> 4) &&& 0x07 ≠ 0xff := by
  have h : (x >>> 4) &&& 0x07 ≤ 0x07 := Nat.and_le_right
  omega

theorem video_standard_step_fst (n : Nat) (p : State × Bool) :
    (video_standard_step n p).1 =
      { p.1 with dec_status1 := n,
                 dec_vstd := if n = p.1.dec_status1 then p.1.dec_vstd else (n >>> 4) &&& 0x07 } := by
  rcases p with ⟨s, b⟩
  have hs := vstd_field_ne_sentinel s.dec_status1
  unfold video_standard_step
  by_cases h1 : n = s.dec_status1
  · simp [h1]
  · by_cases h2 : s.dec_vstd = 0xff
    · simp [h1, h2]
    · by_cases h3 : (n >>> 4) &&& 0x07 = (s.dec_status1 >>> 4) &&& 0x07
      · simp [h1, h2, h3, hs]
      · simp [h1, h2, h3, hs]

theorem video_standard_step_snd (n : Nat) (p : State × Bool) :
    (video_standard_step n p).2 =
      (p.2 || (n != p.1.dec_status1 &&
        (p.1.dec_vstd == 0xff || (n >>> 4) &&& 0x07 != (p.1.dec_status1 >>> 4) &&& 0x07))) := by
  rcases p with ⟨s, b⟩
  have hs := vstd_field_ne_sentinel s.dec_status1
  unfold video_standard_step
  by_cases h1 : n = s.dec_status1
  · simp [h1]
  · by_cases h2 : s.dec_vstd = 0xff
    · simp [h1, h2]
    · by_cases h3 : (n >>> 4) &&& 0x07 = (s.dec_status1 >>> 4) &&& 0x07
      · simp [h1, h2, h3, hs]
      · simp [h1, h2, h3, hs]

theorem video_standard_step_same (p : State × Bool) :
    (video_standard_step p.1.dec_status1 p).2 = p.2 := by
  simp [video_standard_step]

theorem freerun_step_status (p : State × Bool) :
    (freerun_step p).1.freerun_status =
      if p.1.freerun_status = FREERUN_STATUS_LOCKED ∧ bit_set p.1.dec_status3 0x10 = false
      then FREERUN_STATUS_LOCKED
      else lock_classification p.1.dec_status1 p.1.dec_status3 := by
  rcases p with ⟨s, b⟩
  unfold freerun_step lock_classification
  simp only [apply_output_settings_fst]
  cases hf : bit_set s.dec_status3 0x10 <;> cases hs : s.freerun_status <;> simp [hs]

theorem freerun_step_fst (p : State × Bool) :
    (freerun_step p).1 =
      { p.1 with
          freerun_status :=
            if p.1.freerun_status = FREERUN_STATUS_LOCKED ∧ bit_set p.1.dec_status3 0x10 = false
            then FREERUN_STATUS_LOCKED
            else lock_classification p.1.dec_status1 p.1.dec_status3
          bus := freerun_step_bus p } := by
  rw [← freerun_step_status]
  unfold freerun_step_bus freerun_step
  simp only [apply_output_settings_fst]
  split_ifs <;> rfl

theorem freerun_step_bus_filter (p : State × Bool) :
    (freerun_step_bus p).filter is_settings_write = p.1.bus.filter is_settings_write := by
  unfold freerun_step_bus freerun_step
  simp only [apply_output_settings_fst]
  split_ifs <;> first | rfl | exact apply_output_settings_bus_filter _ _ _ _

/-- The flag `freerun_step` returns: raised when the state is recomputed. -/
theorem freerun_step_snd (p : State × Bool) :
    (freerun_step p).2 =
      (p.2 || (bit_set p.1.dec_status3 0x10 !=
                (p.1.freerun_status == FREERUN_STATUS_RUNNING_FREE)) ||
        p.1.freerun_status == FREERUN_STATUS_UNKNOWN) := by
  rcases p with ⟨s, b⟩
  unfold freerun_step
  cases hf : bit_set s.dec_status3 0x10 <;> cases hs : s.freerun_status <;> cases b <;>
    simp [hs]

theorem interlace_step_fst (p : State × Bool) :
    (interlace_step p).1 =
      { p.1 with interlace_status := interlace_classification p.1.dec_status3 } := by
  rcases p with ⟨s, b⟩
  unfold interlace_step interlace_classification
  cases hf : bit_set s.dec_status3 0x40 <;> cases hs : s.interlace_status <;>
    simp [hs] <;> (cases s; simp_all)

theorem interlace_step_snd (p : State × Bool) :
    (interlace_step p).2 =
      (p.2 || decide ((interlace_step p).1.interlace_status ≠ p.1.interlace_status)) := by
  rcases p with ⟨s, b⟩
  rw [interlace_step_fst]
  unfold interlace_step interlace_classification
  cases hf : bit_set s.dec_status3 0x40 <;> cases hs : s.interlace_status <;> simp [hs]

theorem reconcile_classify_fst (n1 n3 : Nat) (st : State) :
    (reconcile_classify n1 n3 st).1 =
      { st with
          dec_status1 := n1 % 256
          dec_vstd := if n1 % 256 = st.dec_status1 then st.dec_vstd
            else ((n1 % 256) >>> 4) &&& 0x07
          dec_status3 := n3 % 256
          freerun_status :=
            if st.freerun_status = FREERUN_STATUS_LOCKED ∧ bit_set (n3 % 256) 0x10 = false
            then FREERUN_STATUS_LOCKED
            else lock_classification (n1 % 256) (n3 % 256)
          interlace_status := interlace_classification (n3 % 256)
          bus := reconcile_classify_bus n1 n3 st } := by
  unfold reconcile_classify_bus reconcile_classify
  simp only [interlace_step_fst, freerun_step_fst, status3_step, video_standard_step_fst,
    I2C_READ_ONE, emit]

theorem reconcile_classify_snd (n1 n3 : Nat) (st : State) :
    (reconcile_classify n1 n3 st).2 =
      ((n1 % 256 != st.dec_status1 &&
          (st.dec_vstd == 0xff ||
            ((n1 % 256) >>> 4) &&& 0x07 != (st.dec_status1 >>> 4) &&& 0x07)) ||
        ((bit_set (n3 % 256) 0x10 != (st.freerun_status == FREERUN_STATUS_RUNNING_FREE)) ||
          st.freerun_status == FREERUN_STATUS_UNKNOWN) ||
        decide (interlace_classification (n3 % 256) ≠ st.interlace_status)) := by
  unfold reconcile_classify
  rw [interlace_step_snd, interlace_step_fst, freerun_step_snd, freerun_step_fst]
  simp only [status3_step, video_standard_step_fst, video_standard_step_snd, I2C_READ_ONE, emit,
    Bool.false_or, Bool.or_assoc]

theorem reconcile_classify_bus_filter (n1 n3 : Nat) (st : State) :
    (reconcile_classify_bus n1 n3 st).filter is_settings_write =
      st.bus.filter is_settings_write := by
  unfold reconcile_classify_bus reconcile_classify
  rw [interlace_step_fst]
  simp only [freerun_step_fst, freerun_step_bus_filter, status3_step, video_standard_step_fst,
    I2C_READ_ONE, emit, List.filter_append]
  simp [is_settings_write]

theorem reconcile_skeleton (n1 n3 input_status : Nat) (st : State) :
    skeleton (reconcile n1 n3 input_status st) =
      skeleton { (reconcile_classify n1 n3 st).1 with check_once_more := st.got_interrupt } := by
  have hg : (reconcile_classify n1 n3 st).1.got_interrupt = st.got_interrupt := by
    rw [reconcile_classify_fst]
  unfold reconcile
  simp only []
  split_ifs with h1 h2 h3 <;>
    simp [skeleton, setup_encoder_eq, clear_interrupts, decoder_call, emit, hg,
      List.filter_append, setup_encoder_bus_filter, is_settings_write]

theorem reconcile_eq (n1 n3 input_status : Nat) (st : State) :
    reconcile n1 n3 input_status st =
      { st with
          dec_status1 := n1 % 256
          dec_vstd := if n1 % 256 = st.dec_status1 then st.dec_vstd
            else ((n1 % 256) >>> 4) &&& 0x07
          dec_status3 := n3 % 256
          freerun_status :=
            if st.freerun_status = FREERUN_STATUS_LOCKED ∧ bit_set (n3 % 256) 0x10 = false
            then FREERUN_STATUS_LOCKED
            else lock_classification (n1 % 256) (n3 % 256)
          interlace_status := interlace_classification (n3 % 256)
          check_once_more := st.got_interrupt
          bus := reconcile_bus n1 n3 input_status st
          noise_reduction := reconcile_noise_reduction n1 n3 input_status st } := by
  have h := eq_of_skeleton (reconcile_skeleton n1 n3 input_status st)
  rw [reconcile_classify_fst] at h
  exact h

theorem reconcile_bus_filter (n1 n3 input_status : Nat) (st : State) :
    (reconcile_bus n1 n3 input_status st).filter is_settings_write =
      st.bus.filter is_settings_write := by
  have h := filter_of_skeleton (reconcile_skeleton n1 n3 input_status st)
  rw [reconcile_classify_fst] at h
  simpa [reconcile_classify_bus_filter] using h

theorem lock_classification_mod (n1 n3 : Nat) :
    lock_classification (n1 % 256) (n3 % 256) = lock_classification n1 n3 := by
  unfold lock_classification
  rw [bit_set_mod_256 n3 0x10 (by norm_num), bit_set_mod_256 n1 0x01 (by norm_num)]

theorem interlace_classification_mod (n3 : Nat) :
    interlace_classification (n3 % 256) = interlace_classification n3 := by
  unfold interlace_classification
  rw [bit_set_mod_256 n3 0x40 (by norm_num)]

/-! ## Frames of the stages of the main loop -/

theorem chroma_stage_skeleton (a b : Nat) (st : State) :
    skeleton (chroma_stage a b st) =
      { skeleton st with chroma_enabled := (chroma_stage a b st).chroma_enabled,
                         led_OPT := (chroma_stage a b st).led_OPT } := by
  unfold chroma_stage
  simp only []
  split_ifs <;>
    simp [skeleton, I2C_READ_ONE, I2C_WRITE, emit, List.filter_append, is_settings_write]

theorem noise_reduction_stage_skeleton (ic op : Bool) (st : State) :
    skeleton (noise_reduction_stage ic op st) = skeleton st := by
  unfold noise_reduction_stage
  split_ifs
  · split <;> simp [skeleton, I2C_WRITE, emit, List.filter_append, is_settings_write]
  · rfl

theorem option_stage_skeleton (ic op : Bool) (input_status : Nat) (st : State) :
    skeleton (option_stage ic op input_status st) =
      { skeleton st with mode_ire := (option_stage ic op input_status st).mode_ire,
                         rgb_color := (option_stage ic op input_status st).rgb_color } := by
  unfold option_stage
  simp only []
  split_ifs <;>
    simp [skeleton, setup_encoder_eq, set_video_range_eq, setup_encoder_bus_filter,
      set_video_range_bus_filter, I2C_WRITE, emit, List.filter_append, is_settings_write]

theorem output_format_stage_skeleton (ic op : Bool) (input_status : Nat) (st : State) :
    skeleton (output_format_stage ic op input_status st) =
      { skeleton st with
          component_output := (output_format_stage ic op input_status st).component_output,
          led_YC := (output_format_stage ic op input_status st).led_YC,
          led_CVBS := (output_format_stage ic op input_status st).led_CVBS } := by
  unfold output_format_stage
  simp only []
  split_ifs <;>
    simp [skeleton, setup_encoder_eq, setup_encoder_bus_filter]

theorem led_stage_skeleton (st : State) :
    skeleton (led_stage st) =
      { skeleton st with led_CVBS := (led_stage st).led_CVBS,
                         led_YC := (led_stage st).led_YC } := by
  unfold led_stage
  split_ifs <;> rfl

theorem reconciler_stage_skeleton (intrq : Bool) (n1 n3 input_status : Nat) (st : State) :
    skeleton (reconciler_stage intrq n1 n3 input_status st) =
      { skeleton st with
          got_interrupt := !intrq
          check_once_more := (reconciler_stage intrq n1 n3 input_status st).check_once_more
          dec_status1 := (reconciler_stage intrq n1 n3 input_status st).dec_status1
          dec_vstd := (reconciler_stage intrq n1 n3 input_status st).dec_vstd
          dec_status3 := (reconciler_stage intrq n1 n3 input_status st).dec_status3
          freerun_status := (reconciler_stage intrq n1 n3 input_status st).freerun_status
          interlace_status := (reconciler_stage intrq n1 n3 input_status st).interlace_status } := by
  unfold reconciler_stage
  simp only []
  split_ifs <;> simp [skeleton, reconcile_eq, reconcile_bus_filter]

theorem input_cycler_skeleton (activity input_status : Nat) (st : State) :
    skeleton (input_cycler activity input_status st) =
      { skeleton st with
          input_timer := (input_cycler activity input_status st).input_timer
          curr_input := (input_cycler activity input_status st).curr_input
          interlace_status := (input_cycler activity input_status st).interlace_status
          freerun_status := (input_cycler activity input_status st).freerun_status
          led_CVBS := (input_cycler activity input_status st).led_CVBS
          led_YC := (input_cycler activity input_status st).led_YC } := by
  unfold input_cycler
  simp only []
  split_ifs
  · simp [skeleton, I2C_READ_ONE, emit, List.filter_append, is_settings_write]
  · split <;>
      simp [skeleton, setup_video_eq, setup_video_bus_filter, I2C_READ_ONE, emit,
        List.filter_append, is_settings_write]
  · simp [skeleton, I2C_READ_ONE, emit, List.filter_append, is_settings_write]

theorem chroma_stage_curr_input (a b : Nat) (st : State) :
    (chroma_stage a b st).curr_input = st.curr_input := by
  have h := congrArg State.curr_input (chroma_stage_skeleton a b st)
  exact h

theorem chroma_stage_input_timer (a b : Nat) (st : State) :
    (chroma_stage a b st).input_timer = st.input_timer := by
  have h := congrArg State.input_timer (chroma_stage_skeleton a b st)
  exact h

theorem noise_reduction_stage_curr_input (ic op : Bool) (st : State) :
    (noise_reduction_stage ic op st).curr_input = st.curr_input := by
  have h := congrArg State.curr_input (noise_reduction_stage_skeleton ic op st)
  exact h

theorem noise_reduction_stage_input_timer (ic op : Bool) (st : State) :
    (noise_reduction_stage ic op st).input_timer = st.input_timer := by
  have h := congrArg State.input_timer (noise_reduction_stage_skeleton ic op st)
  exact h

theorem option_stage_curr_input (ic op : Bool) (input_status : Nat) (st : State) :
    (option_stage ic op input_status st).curr_input = st.curr_input := by
  have h := congrArg State.curr_input (option_stage_skeleton ic op input_status st)
  exact h

theorem option_stage_input_timer (ic op : Bool) (input_status : Nat) (st : State) :
    (option_stage ic op input_status st).input_timer = st.input_timer := by
  have h := congrArg State.input_timer (option_stage_skeleton ic op input_status st)
  exact h

theorem output_format_stage_curr_input (ic op : Bool) (input_status : Nat) (st : State) :
    (output_format_stage ic op input_status st).curr_input = st.curr_input := by
  have h := congrArg State.curr_input (output_format_stage_skeleton ic op input_status st)
  exact h

theorem output_format_stage_input_timer (ic op : Bool) (input_status : Nat) (st : State) :
    (output_format_stage ic op input_status st).input_timer = st.input_timer := by
  have h := congrArg State.input_timer (output_format_stage_skeleton ic op input_status st)
  exact h

theorem led_stage_curr_input (st : State) :
    (led_stage st).curr_input = st.curr_input := by
  have h := congrArg State.curr_input (led_stage_skeleton st)
  exact h

theorem led_stage_input_timer (st : State) :
    (led_stage st).input_timer = st.input_timer := by
  have h := congrArg State.input_timer (led_stage_skeleton st)
  exact h

theorem reconciler_stage_curr_input (intrq : Bool) (n1 n3 input_status : Nat) (st : State) :
    (reconciler_stage intrq n1 n3 input_status st).curr_input = st.curr_input := by
  have h := congrArg State.curr_input (reconciler_stage_skeleton intrq n1 n3 input_status st)
  exact h

theorem reconciler_stage_input_timer (intrq : Bool) (n1 n3 input_status : Nat) (st : State) :
    (reconciler_stage intrq n1 n3 input_status st).input_timer = st.input_timer := by
  have h := congrArg State.input_timer (reconciler_stage_skeleton intrq n1 n3 input_status st)
  exact h

theorem chroma_stage_settings_writes (a b : Nat) (st : State) :
    (chroma_stage a b st).bus.filter is_settings_write = st.bus.filter is_settings_write := by
  have h := congrArg State.bus (chroma_stage_skeleton a b st)
  exact h

theorem noise_reduction_stage_settings_writes (ic op : Bool) (st : State) :
    (noise_reduction_stage ic op st).bus.filter is_settings_write = st.bus.filter is_settings_write := by
  have h := congrArg State.bus (noise_reduction_stage_skeleton ic op st)
  exact h

theorem option_stage_settings_writes (ic op : Bool) (input_status : Nat) (st : State) :
    (option_stage ic op input_status st).bus.filter is_settings_write = st.bus.filter is_settings_write := by
  have h := congrArg State.bus (option_stage_skeleton ic op input_status st)
  exact h

theorem output_format_stage_settings_writes (ic op : Bool) (input_status : Nat) (st : State) :
    (output_format_stage ic op input_status st).bus.filter is_settings_write = st.bus.filter is_settings_write := by
  have h := congrArg State.bus (output_format_stage_skeleton ic op input_status st)
  exact h

theorem led_stage_settings_writes (st : State) :
    (led_stage st).bus.filter is_settings_write = st.bus.filter is_settings_write := by
  have h := congrArg State.bus (led_stage_skeleton st)
  exact h

theorem reconciler_stage_settings_writes (intrq : Bool) (n1 n3 input_status : Nat) (st : State) :
    (reconciler_stage intrq n1 n3 input_status st).bus.filter is_settings_write = st.bus.filter is_settings_write := by
  have h := congrArg State.bus (reconciler_stage_skeleton intrq n1 n3 input_status st)
  exact h

theorem input_cycler_settings_writes (activity input_status : Nat) (st : State) :
    (input_cycler activity input_status st).bus.filter is_settings_write = st.bus.filter is_settings_write := by
  have h := congrArg State.bus (input_cycler_skeleton activity input_status st)
  exact h

/-- Only the input cycler touches the active input and the idle counter. -/
theorem main_loop_body_cycler (i : LoopInput) (st : State) :
    (main_loop_body i st).curr_input =
        (input_cycler i.activity_status1 i.cycler_input_status st).curr_input ∧
      (main_loop_body i st).input_timer =
        (input_cycler i.activity_status1 i.cycler_input_status st).input_timer := by
  unfold main_loop_body
  constructor
  · show (delay_ms 10 _).curr_input = _
    rw [show ∀ s : State, (delay_ms 10 s).curr_input = s.curr_input from fun _ => rfl,
      reconciler_stage_curr_input, led_stage_curr_input, output_format_stage_curr_input,
      option_stage_curr_input, noise_reduction_stage_curr_input, chroma_stage_curr_input]
  · show (delay_ms 10 _).input_timer = _
    rw [show ∀ s : State, (delay_ms 10 s).input_timer = s.input_timer from fun _ => rfl,
      reconciler_stage_input_timer, led_stage_input_timer, output_format_stage_input_timer,
      option_stage_input_timer, noise_reduction_stage_input_timer, chroma_stage_input_timer]

/-- No pass of the main loop writes the settings back. -/
theorem main_loop_body_settings_writes (i : LoopInput) (st : State) :
    (main_loop_body i st).bus.filter is_settings_write = st.bus.filter is_settings_write := by
  unfold main_loop_body
  show (delay_ms 10 _).bus.filter is_settings_write = _
  rw [show ∀ s : State, (delay_ms 10 s).bus.filter is_settings_write =
        s.bus.filter is_settings_write from fun s => congrArg State.bus (skeleton_delay_ms 10 s),
    reconciler_stage_settings_writes, led_stage_settings_writes,
    output_format_stage_settings_writes, option_stage_settings_writes,
    noise_reduction_stage_settings_writes, chroma_stage_settings_writes,
    input_cycler_settings_writes]

/-! ## The input cycler -/

theorem input_cycler_present (st : State) (activity input_status : Nat)
    (h : bit_set activity 0x01 = true) :
    input_cycler activity input_status st =
      { st with input_timer := 0
                bus := st.bus ++ [Event.i2c_read_one decoder_address 0x10 (activity % 256)] } := by
  have h' := (bit_set_mod_256 activity 0x01 (by norm_num)).trans h
  unfold input_cycler
  simp [I2C_READ_ONE, emit, h']

theorem input_cycler_idle (st : State) (activity input_status : Nat)
    (h : bit_set activity 0x01 = false) (ht : st.input_timer ≤ 20) :
    input_cycler activity input_status st =
      { st with input_timer := st.input_timer + 1
                bus := st.bus ++ [Event.i2c_read_one decoder_address 0x10 (activity % 256)] } := by
  have h' := (bit_set_mod_256 activity 0x01 (by norm_num)).trans h
  have ht' : ¬ 20 < st.input_timer := not_lt.mpr ht
  unfold input_cycler
  simp [I2C_READ_ONE, emit, h', ht']

theorem input_cycler_switch (st : State) (activity input_status : Nat) (nxt : Input)
    (h : bit_set activity 0x01 = false) (ht : 20 < st.input_timer)
    (hn : cyclic_successor st.curr_input = some nxt) :
    input_cycler activity input_status st =
      { setup_video (input_to_phys nxt) st.pedestal_enabled false input_status
          { st with interlace_status := INTERLACE_STATUS_UNKNOWN
                    freerun_status := FREERUN_STATUS_UNKNOWN
                    bus := st.bus ++ [Event.i2c_read_one decoder_address 0x10 (activity % 256)] }
        with curr_input := nxt
             led_CVBS := decide (nxt ≠ SVIDEO)
             led_YC := decide (nxt ≠ CVBS)
             input_timer := 0 } := by
  have h' := (bit_set_mod_256 activity 0x01 (by norm_num)).trans h
  unfold input_cycler
  cases hc : st.curr_input <;> simp [hc, cyclic_successor] at hn <;> subst hn <;>
    simp [I2C_READ_ONE, emit, h', ht, hc, input_to_phys]

theorem main_loop_append (a b : List LoopInput) (st : State) :
    main_loop (a ++ b) st = main_loop b (main_loop a st) := by
  induction a generalizing st with
  | nil => rfl
  | cons i rest ih => exact ih (main_loop_body i st)

/-- While the idle counter stays within the threshold, passes without signal
activity only count. -/
theorem main_loop_idle (ins : List LoopInput) (st : State)
    (habs : ∀ i ∈ ins, activity_absent i) (hlen : st.input_timer + ins.length ≤ 21) :
    (main_loop ins st).curr_input = st.curr_input ∧
      (main_loop ins st).input_timer = st.input_timer + ins.length := by
  induction ins generalizing st with
  | nil => simp [main_loop]
  | cons i rest ih =>
    have hi : bit_set i.activity_status1 0x01 = false := habs i (List.mem_cons_self _ _)
    simp only [List.length_cons, Nat.cast_add, Nat.cast_one] at hlen
    have ht : st.input_timer ≤ 20 := by
      have : (0 : Int) ≤ (rest.length : Int) := Int.natCast_nonneg _
      omega
    have hb := main_loop_body_cycler i st
    rw [input_cycler_idle st _ _ hi ht] at hb
    have hr := ih (main_loop_body i st) (fun j hj => habs j (List.mem_cons_of_mem _ hj))
      (by rw [hb.2]; simp only []; omega)
    simp only [main_loop, List.length_cons, Nat.cast_add, Nat.cast_one]
    rw [hr.1, hr.2, hb.1, hb.2]
    simp only []
    constructor
    · trivial
    · omega

/-- The pass on which the idle counter is found above the threshold switches
the input. -/
theorem main_loop_body_switch (i : LoopInput) (st : State) (nxt : Input)
    (hi : activity_absent i) (ht : 20 < st.input_timer)
    (hn : cyclic_successor st.curr_input = some nxt) :
    (main_loop_body i st).curr_input = nxt ∧ (main_loop_body i st).input_timer = 0 := by
  have hb := main_loop_body_cycler i st
  rw [input_cycler_switch st _ _ nxt hi ht hn] at hb
  exact hb

/-! ## Settings write-back -/

theorem main_loop_settings_writes (ins : List LoopInput) (st : State) :
    (main_loop ins st).bus.filter is_settings_write = st.bus.filter is_settings_write := by
  induction ins generalizing st with
  | nil => rfl
  | cons i rest ih =>
    show (main_loop rest (main_loop_body i st)).bus.filter is_settings_write = _
    rw [ih, main_loop_body_settings_writes]

theorem main_startup_settings_writes (settings : KoryuuSettings) (input_status : Nat) :
    (main_startup settings input_status).bus.filter is_settings_write =
      if settings.is_dirty && !settings.is_downgrading then [Event.settings_write] else [] := by
  unfold main_startup settings_writeback
  simp only [setup_video_eq]
  split_ifs <;>
    simp [setup_video_bus_filter, delay_ms, I2C_WRITE, emit, power_on, List.filter_append,
      is_settings_write]

theorem is_settings_write_iff (e : Event) : is_settings_write e = true ↔ e = Event.settings_write := by
  cases e <;> simp [is_settings_write]

/-! ## The fault handler -/

theorem input_cycler_in_cycle (activity input_status : Nat) (st : State)
    (h : (cyclic_successor st.curr_input).isSome = true) :
    (cyclic_successor (input_cycler activity input_status st).curr_input).isSome = true := by
  cases ha : bit_set activity 0x01
  · by_cases ht : 20 < st.input_timer
    · obtain ⟨nxt, hn⟩ := Option.isSome_iff_exists.mp h
      rw [input_cycler_switch st activity input_status nxt ha ht hn]
      show (cyclic_successor nxt).isSome = true
      cases hc : st.curr_input <;> simp [hc, cyclic_successor] at hn <;> subst hn <;> rfl
    · rw [input_cycler_idle st activity input_status ha (not_lt.mp ht)]
      exact h
  · rw [input_cycler_present st activity input_status ha]
    exact h

theorem main_loop_in_cycle (ins : List LoopInput) (st : State)
    (h : (cyclic_successor st.curr_input).isSome = true) :
    (cyclic_successor (main_loop ins st).curr_input).isSome = true := by
  induction ins generalizing st with
  | nil => exact h
  | cons i rest ih =>
    apply ih (main_loop_body i st)
    rw [(main_loop_body_cycler i st).1]
    exact input_cycler_in_cycle _ _ st h

theorem main_startup_curr_input (settings : KoryuuSettings) (input_status : Nat) :
    (main_startup settings input_status).curr_input = COMPONENT := by
  unfold main_startup
  simp only [setup_video_eq]
  rfl

/-- In every run of the program the active input is one of CVBS, S-Video and
component: it has a cyclic successor. -/
theorem main_in_cycle (settings : KoryuuSettings) (input_status : Nat) (ins : List LoopInput) :
    (cyclic_successor (main settings input_status ins).curr_input).isSome = true := by
  unfold main
  apply main_loop_in_cycle
  rw [main_startup_curr_input]
  rfl

/-! ## The video standard -/

theorem standard_field_eq (x : Nat) : (x >>> 4) &&& 0x07 = standard_field x := by
  unfold standard_field
  rw [Nat.shiftRight_eq_div_pow]
  exact Nat.and_pow_two_sub_one_eq_mod (x / 2 ^ 4) 3

/-! ## What the set-up routines put on the bus -/

theorem apply_output_settings_explicit (d ad ae : Bool) (st : State) :
    apply_output_settings d ad ae st =
      ({ st with bus := st.bus ++ apply_output_settings_events d ad ae st.freerun_status },
       outputs_disabled d st.freerun_status && ae) := by
  rcases st with ⟨ils, ci, pe, co, cin, rgb, ce, mi, lt, it, nr, fs, df, l1, l2, l3, dr, dp, er,
    ds1, dv, ds3, gi, com, bus⟩
  cases d <;> cases ad <;> cases ae <;> cases fs <;>
    simp [apply_output_settings, apply_output_settings_events, outputs_disabled, I2C_WRITE,
      decoder_call, emit]

theorem set_video_range_explicit (m : Int) (st : State) :
    set_video_range m st = { st with bus := st.bus ++ set_video_range_events m } := by
  unfold set_video_range set_video_range_events
  split <;> simp_all [video_range_case, video_range_case_events, I2C_WRITE, emit]

theorem setup_encoder_explicit (reset : Bool) (input_status : Nat) (st : State) :
    setup_encoder reset input_status st =
      { st with
          bus := st.bus ++ setup_encoder_events reset input_status st
          noise_reduction :=
            if outputs_disabled st.disable_freerun st.freerun_status then st.noise_reduction
            else 0 } := by
  rcases st with ⟨ils, ci, pe, co, cin, rgb, ce, mi, lt, it, nr, fs, df, l1, l2, l3, dr, dp, er,
    ds1, dv, ds3, gi, com, bus⟩
  cases reset <;> cases df <;> cases fs <;>
    cases hb : bit_set (input_status % 256) 0x04 <;> cases co <;> cases rgb <;>
    simp [setup_encoder, setup_encoder_events, apply_output_settings, outputs_disabled,
      I2C_WRITE, I2C_WRITE_unchecked, I2C_READ_ONE, delay_ms, emit, hb]

theorem setup_encoder_events_congr (reset : Bool) (input_status : Nat) (s t : State)
    (h1 : s.disable_freerun = t.disable_freerun) (h2 : s.freerun_status = t.freerun_status)
    (h3 : s.component_output = t.component_output) (h4 : s.rgb_color = t.rgb_color) :
    setup_encoder_events reset input_status s = setup_encoder_events reset input_status t := by
  unfold setup_encoder_events
  rw [h1, h2, h3, h4]

theorem setup_video_explicit (input : PhysInput) (pedestal smoothing : Bool) (input_status : Nat)
    (st : State) :
    setup_video input pedestal smoothing input_status st =
      { st with
          bus := st.bus ++ setup_video_events input input_status st
          noise_reduction :=
            if outputs_disabled st.disable_freerun st.freerun_status then st.noise_reduction
            else 0 } := by
  rcases st with ⟨ils, ci, pe, co, cin, rgb, ce, mi, lt, it, nr, fs, df, l1, l2, l3, dr, dp, er,
    ds1, dv, ds3, gi, com, bus⟩
  cases input <;>
    simp [setup_video, setup_video_events, setup_encoder_explicit, apply_output_settings_explicit,
      apply_output_settings_events, set_video_range_explicit, input_selection,
      I2C_WRITE, I2C_WRITE_unchecked, decoder_call, delay_ms, emit] <;>
    exact setup_encoder_events_congr _ _ _ _ rfl rfl rfl rfl

theorem apply_output_settings_events_select_input (d ad ae : Bool) (L : FreerunStatus) :
    (apply_output_settings_events d ad ae L).filter is_select_input = [] := by
  cases ad <;> cases ae <;> simp [apply_output_settings_events, is_select_input]

theorem set_video_range_events_select_input (m : Int) :
    (set_video_range_events m).filter is_select_input = [] := by
  unfold set_video_range_events
  split_ifs <;> simp [video_range_case_events, is_select_input]

theorem setup_encoder_events_select_input (reset : Bool) (input_status : Nat) (st : State) :
    (setup_encoder_events reset input_status st).filter is_select_input = [] := by
  unfold setup_encoder_events
  cases reset <;> split_ifs <;> simp [is_select_input]

theorem setup_video_events_select_input (input : PhysInput) (input_status : Nat) (st : State) :
    (setup_video_events input input_status st).filter is_select_input =
      [Event.decoder (DecoderCall.select_input (input_selection input))] := by
  unfold setup_video_events
  simp only [List.filter_append, set_video_range_events_select_input,
    setup_encoder_events_select_input]
  cases input <;> simp [is_select_input]

theorem main_startup_select_input (settings : KoryuuSettings) (input_status : Nat) :
    (main_startup settings input_status).bus.filter is_select_input =
      [Event.decoder (DecoderCall.select_input INSEL_YPbPr_Ain1_2_3)] := by
  unfold main_startup settings_writeback
  simp only [setup_video_explicit]
  split_ifs <;>
    simp [delay_ms, I2C_WRITE, emit, power_on, List.filter_append, is_select_input,
      setup_video_events_select_input, input_to_phys, input_selection]

/-! ## What the reconciler puts on the bus -/

theorem freerun_step_bus_explicit (p : State × Bool) :
    freerun_step_bus p =
      p.1.bus ++
        (if (bit_set p.1.dec_status3 0x10 !=
              (p.1.freerun_status == FREERUN_STATUS_RUNNING_FREE)) ||
            p.1.freerun_status == FREERUN_STATUS_UNKNOWN then
          [Event.decoder (DecoderCall.set_output_control
            (outputs_disabled p.1.disable_freerun
              (lock_classification p.1.dec_status1 p.1.dec_status3)) true)]
        else []) := by
  rcases p with ⟨s, b⟩
  unfold freerun_step_bus freerun_step lock_classification
  simp only [apply_output_settings_explicit, apply_output_settings_events]
  cases hf : bit_set s.dec_status3 0x10 <;> cases hs : s.freerun_status <;> simp [hs]

theorem reconcile_classify_bus_explicit (n1 n3 : Nat) (st : State) :
    reconcile_classify_bus n1 n3 st =
      st.bus ++
        [Event.i2c_read_one decoder_address 0x10 (n1 % 256),
         Event.i2c_read_one decoder_address 0x13 (n3 % 256)] ++
        (if lock_recomputed st n3 then
          [Event.decoder (DecoderCall.set_output_control
            (outputs_disabled st.disable_freerun
              (lock_classification (n1 % 256) (n3 % 256))) true)]
        else []) := by
  unfold reconcile_classify_bus reconcile_classify lock_recomputed
  rw [interlace_step_fst]
  simp only [freerun_step_fst, freerun_step_bus_explicit, status3_step, video_standard_step_fst,
    I2C_READ_ONE, emit, List.append_assoc, List.singleton_append]

theorem clear_interrupts_explicit (st : State) :
    clear_interrupts st = { st with bus := st.bus ++ clear_interrupts_events } := by
  simp [clear_interrupts, clear_interrupts_events, decoder_call, emit]

theorem reconcile_bus_explicit (n1 n3 input_status : Nat) (st : State) :
    reconcile_bus n1 n3 input_status st =
      reconcile_classify_bus n1 n3 st ++
        (if (reconcile_classify n1 n3 st).2 then
          setup_encoder_events false input_status (reconcile_classify n1 n3 st).1
        else []) ++
        (if st.got_interrupt then clear_interrupts_events else []) := by
  have hfst := reconcile_classify_fst n1 n3 st
  unfold reconcile_bus reconcile
  simp only []
  split_ifs with h1 h2 h3 <;>
    simp_all [setup_encoder_explicit, clear_interrupts_explicit]

theorem main_loop_body_eq (i : LoopInput) (st : State) :
    main_loop_body i st =
      delay_ms 10 (reconciler_stage i.intrq i.new_status1 i.new_status3
        i.reconciler_input_status (before_reconciler i st)) := rfl

theorem input_cycler_freerun_status (activity input_status : Nat) (st : State) :
    (input_cycler activity input_status st).freerun_status = st.freerun_status ∨
      (input_cycler activity input_status st).freerun_status = FREERUN_STATUS_UNKNOWN := by
  unfold input_cycler
  simp only []
  split_ifs
  · left; rfl
  · split <;> simp [setup_video_eq, I2C_READ_ONE, emit]
  · left; rfl

theorem before_reconciler_freerun_status (i : LoopInput) (st : State) :
    (before_reconciler i st).freerun_status = st.freerun_status ∨
      (before_reconciler i st).freerun_status = FREERUN_STATUS_UNKNOWN := by
  have h1 : (before_reconciler i st).freerun_status =
      (input_cycler i.activity_status1 i.cycler_input_status st).freerun_status := by
    unfold before_reconciler
    have a := congrArg State.freerun_status (led_stage_skeleton
      (output_format_stage i.input_change_pressed i.option_pressed i.button_input_status
        (option_stage i.input_change_pressed i.option_pressed i.button_input_status
          (noise_reduction_stage i.input_change_pressed i.option_pressed
            (chroma_stage i.chroma_status1_a i.chroma_status1_b
              (input_cycler i.activity_status1 i.cycler_input_status st))))))
    have b := congrArg State.freerun_status (output_format_stage_skeleton
      i.input_change_pressed i.option_pressed i.button_input_status
        (option_stage i.input_change_pressed i.option_pressed i.button_input_status
          (noise_reduction_stage i.input_change_pressed i.option_pressed
            (chroma_stage i.chroma_status1_a i.chroma_status1_b
              (input_cycler i.activity_status1 i.cycler_input_status st)))))
    have c := congrArg State.freerun_status (option_stage_skeleton
      i.input_change_pressed i.option_pressed i.button_input_status
          (noise_reduction_stage i.input_change_pressed i.option_pressed
            (chroma_stage i.chroma_status1_a i.chroma_status1_b
              (input_cycler i.activity_status1 i.cycler_input_status st))))
    have d := congrArg State.freerun_status (noise_reduction_stage_skeleton
      i.input_change_pressed i.option_pressed
            (chroma_stage i.chroma_status1_a i.chroma_status1_b
              (input_cycler i.activity_status1 i.cycler_input_status st)))
    have e := congrArg State.freerun_status (chroma_stage_skeleton
      i.chroma_status1_a i.chroma_status1_b
              (input_cycler i.activity_status1 i.cycler_input_status st))
    exact a.trans (b.trans (c.trans (d.trans e)))
  rw [h1]
  exact input_cycler_freerun_status _ _ st

theorem reconciler_stage_unknown (intrq : Bool) (n1 n3 input_status : Nat) (st : State)
    (h : st.freerun_status = FREERUN_STATUS_UNKNOWN) :
    reconciler_stage intrq n1 n3 input_status st =
      reconcile n1 n3 input_status { st with got_interrupt := !intrq } := by
  unfold reconciler_stage
  simp [h]

theorem main_loop_unknown (ins : List LoopInput) (st : State)
    (h0 : st.freerun_status = FREERUN_STATUS_UNKNOWN)
    (hins : ∀ j ∈ ins, neither_freerun_nor_lock j) :
    (main_loop ins st).freerun_status = FREERUN_STATUS_UNKNOWN := by
  induction ins generalizing st with
  | nil => exact h0
  | cons i rest ih =>
    apply ih (main_loop_body i st) _ (fun j hj => hins j (List.mem_cons_of_mem _ hj))
    have hi := hins i (List.mem_cons_self _ _)
    have hb : (before_reconciler i st).freerun_status = FREERUN_STATUS_UNKNOWN := by
      rcases before_reconciler_freerun_status i st with h | h
      · rw [h, h0]
      · exact h
    rw [main_loop_body_eq, reconciler_stage_unknown _ _ _ _ _ hb]
    show (reconcile _ _ _ _).freerun_status = _
    rw [reconcile_eq]
    have hf := (bit_set_mod_256 i.new_status3 0x10 (by norm_num)).trans hi.1
    have hl := (bit_set_mod_256 i.new_status1 0x01 (by norm_num)).trans hi.2
    simp [hb, lock_classification, hf, hl]

/-! ## The button stages -/

theorem option_stage_press (input_status : Nat) (st : State) :
    option_stage false true input_status st =
      { st with
          mode_ire := if st.mode_ire < 5 then st.mode_ire + 1 else 0
          rgb_color := if st.mode_ire < 5 then st.rgb_color else !st.rgb_color
          noise_reduction :=
            if outputs_disabled st.disable_freerun st.freerun_status then st.noise_reduction
            else 0
          bus := st.bus ++
            (if st.mode_ire < 5 then []
             else [Event.i2c_write encoder_address 0x02 (if st.rgb_color then 0x74 else 0x54)]) ++
            set_video_range_events (if st.mode_ire < 5 then st.mode_ire + 1 else 0) ++
            setup_encoder_events false input_status
              { st with rgb_color := if st.mode_ire < 5 then st.rgb_color else !st.rgb_color } } := by
  rcases st with ⟨ils, ci, pe, co, cin, rgb, ce, mi, lt, it, nr, fs, df, l1, l2, l3, dr, dp, er,
    ds1, dv, ds3, gi, com, bus⟩
  by_cases hm : mi < 5 <;> cases rgb <;>
    simp [option_stage, hm, setup_encoder_explicit, set_video_range_explicit, I2C_WRITE, emit] <;>
    exact setup_encoder_events_congr _ _ _ _ rfl rfl rfl rfl

theorem output_format_stage_press (input_status : Nat) (st : State) :
    output_format_stage true true input_status st =
      { st with
          component_output := !st.component_output
          led_YC := if st.component_output then decide (st.curr_input = SVIDEO) else st.led_YC
          led_CVBS := if st.component_output then decide (st.curr_input ≠ SVIDEO) else st.led_CVBS
          noise_reduction :=
            if outputs_disabled st.disable_freerun st.freerun_status then st.noise_reduction
            else 0
          bus := st.bus ++
            setup_encoder_events false input_status
              { st with component_output := !st.component_output } } := by
  rcases st with ⟨ils, ci, pe, co, cin, rgb, ce, mi, lt, it, nr, fs, df, l1, l2, l3, dr, dp, er,
    ds1, dv, ds3, gi, com, bus⟩
  cases co <;> by_cases hc : ci = SVIDEO <;>
    simp [output_format_stage, hc, setup_encoder_explicit] <;>
    exact setup_encoder_events_congr _ _ _ _ rfl rfl rfl rfl

/-! ## The display mode -/

theorem apply_output_settings_events_mode7 (d ad ae : Bool) (L : FreerunStatus) :
    (apply_output_settings_events d ad ae L).filter is_mode7_write = [] := by
  cases ad <;> cases ae <;> cases d <;> cases L <;>
    simp [apply_output_settings_events, is_mode7_write, outputs_disabled, encoder_address]

theorem set_video_range_events_mode7 (m : Int) (h : m ≠ 6) :
    (set_video_range_events m).filter is_mode7_write = [] := by
  unfold set_video_range_events
  split_ifs <;>
    simp [video_range_case_events, is_mode7_write, encoder_address, decoder_address]

theorem setup_encoder_events_mode7 (reset : Bool) (input_status : Nat) (st : State) :
    (setup_encoder_events reset input_status st).filter is_mode7_write = [] := by
  unfold setup_encoder_events
  cases reset <;> split_ifs <;> simp [is_mode7_write, encoder_address, decoder_address]

theorem setup_video_events_mode7 (input : PhysInput) (input_status : Nat) (st : State)
    (h : st.mode_ire ≠ 6) :
    (setup_video_events input input_status st).filter is_mode7_write = [] := by
  unfold setup_video_events
  simp only [List.filter_append, set_video_range_events_mode7 _ h, setup_encoder_events_mode7]
  cases input <;> simp [is_mode7_write, encoder_address, decoder_address]

theorem clear_interrupts_events_mode7 :
    clear_interrupts_events.filter is_mode7_write = [] := by
  simp [clear_interrupts_events, is_mode7_write]

theorem option_stage_idle (ic op : Bool) (input_status : Nat) (st : State)
    (h : ((!ic) && op) = false) : option_stage ic op input_status st = st := by
  unfold option_stage
  simp [h]

theorem output_format_stage_idle (ic op : Bool) (input_status : Nat) (st : State)
    (h : (ic && op) = false) : output_format_stage ic op input_status st = st := by
  unfold output_format_stage
  simp [h]

theorem input_cycler_mode7 (activity input_status : Nat) (st : State) (h : st.mode_ire ≠ 6) :
    (input_cycler activity input_status st).bus.filter is_mode7_write =
      st.bus.filter is_mode7_write := by
  have key : ∀ (u : State) (i : PhysInput) (x : Nat), u.mode_ire = st.mode_ire →
      (setup_video_events i x u).filter is_mode7_write = [] :=
    fun u i x hu => setup_video_events_mode7 i x u (by rw [hu]; exact h)
  unfold input_cycler
  simp only []
  split_ifs
  · simp [I2C_READ_ONE, emit, List.filter_append, is_mode7_write]
  · split <;>
      simp [setup_video_explicit, I2C_READ_ONE, emit, List.filter_append, key, is_mode7_write]
  · simp [I2C_READ_ONE, emit, List.filter_append, is_mode7_write]

theorem chroma_stage_mode7 (a b : Nat) (st : State) :
    (chroma_stage a b st).bus.filter is_mode7_write = st.bus.filter is_mode7_write := by
  unfold chroma_stage
  simp only []
  split_ifs <;>
    simp [I2C_READ_ONE, I2C_WRITE, emit, List.filter_append, is_mode7_write, encoder_address]

theorem noise_reduction_stage_mode7 (ic op : Bool) (st : State) :
    (noise_reduction_stage ic op st).bus.filter is_mode7_write =
      st.bus.filter is_mode7_write := by
  unfold noise_reduction_stage
  split_ifs
  · split <;>
      simp [I2C_WRITE, emit, List.filter_append, is_mode7_write, encoder_address,
        decoder_address]
  · rfl

theorem option_stage_mode7 (ic op : Bool) (input_status : Nat) (st : State)
    (h0 : 0 ≤ st.mode_ire) (h5 : st.mode_ire ≤ 5) :
    (option_stage ic op input_status st).bus.filter is_mode7_write =
      st.bus.filter is_mode7_write := by
  cases hp : ((!ic) && op)
  · rw [option_stage_idle ic op input_status st hp]
  · have hic : ic = false := by cases ic <;> simp_all
    have hop : op = true := by cases op <;> simp_all
    subst hic hop
    rw [option_stage_press]
    have hm : (if st.mode_ire < 5 then st.mode_ire + 1 else 0) ≠ 6 := by
      split_ifs <;> omega
    simp only [List.filter_append, set_video_range_events_mode7 _ hm, setup_encoder_events_mode7,
      List.append_nil]
    split_ifs <;> cases st.rgb_color <;> simp [is_mode7_write, encoder_address]

theorem output_format_stage_mode7 (ic op : Bool) (input_status : Nat) (st : State) :
    (output_format_stage ic op input_status st).bus.filter is_mode7_write =
      st.bus.filter is_mode7_write := by
  cases hp : (ic && op)
  · rw [output_format_stage_idle ic op input_status st hp]
  · have hic : ic = true := by cases ic <;> simp_all
    have hop : op = true := by cases op <;> simp_all
    subst hic hop
    rw [output_format_stage_press]
    simp only [List.filter_append, setup_encoder_events_mode7, List.append_nil]

theorem led_stage_bus (st : State) : (led_stage st).bus = st.bus := by
  unfold led_stage
  split_ifs <;> rfl

theorem reconcile_mode7 (n1 n3 input_status : Nat) (st : State) :
    (reconcile n1 n3 input_status st).bus.filter is_mode7_write =
      st.bus.filter is_mode7_write := by
  show (reconcile_bus n1 n3 input_status st).filter is_mode7_write = _
  rw [reconcile_bus_explicit, reconcile_classify_bus_explicit]
  simp only [List.filter_append]
  have e1 : ∀ (c : Bool) (l : List Event), l.filter is_mode7_write = [] →
      (if c then l else []).filter is_mode7_write = [] := by
    intro c l hl
    cases c <;> simp [hl]
  rw [e1 _ _ (setup_encoder_events_mode7 _ _ _), e1 _ _ clear_interrupts_events_mode7]
  split_ifs <;> simp [is_mode7_write]

theorem reconciler_stage_mode7 (intrq : Bool) (n1 n3 input_status : Nat) (st : State) :
    (reconciler_stage intrq n1 n3 input_status st).bus.filter is_mode7_write =
      st.bus.filter is_mode7_write := by
  unfold reconciler_stage
  simp only []
  split_ifs
  · rw [reconcile_mode7]
  · rfl

theorem option_stage_press_step (input_status : Nat) (st : State) :
    ((option_stage false true input_status st).mode_ire,
      (option_stage false true input_status st).rgb_color) =
      option_press_step (st.mode_ire, st.rgb_color) := by
  rw [option_stage_press]
  rfl

theorem option_stage_press_iterate (input_status : Nat) (n : Nat) (st : State) :
    (((option_stage false true input_status)^[n] st).mode_ire,
      ((option_stage false true input_status)^[n] st).rgb_color) =
      option_press_step^[n] (st.mode_ire, st.rgb_color) := by
  induction n with
  | zero => rfl
  | succ k ih =>
    rw [Function.iterate_succ_apply', Function.iterate_succ_apply', option_stage_press_step, ih]

theorem option_press_step_six (m : Int) (c : Bool) (h0 : 0 ≤ m) (h5 : m ≤ 5) :
    option_press_step^[6] (m, c) = (m, !c) := by
  have hm : m = 0 ∨ m = 1 ∨ m = 2 ∨ m = 3 ∨ m = 4 ∨ m = 5 := by omega
  rcases hm with h | h | h | h | h | h <;> subst h <;> cases c <;>
    simp [Function.iterate_succ, option_press_step]

theorem option_stage_mode_in_range (ic op : Bool) (input_status : Nat) (st : State)
    (h : mode_in_range st) : mode_in_range (option_stage ic op input_status st) := by
  obtain ⟨h0, h5, hb⟩ := h
  refine ⟨?_, ?_, ?_⟩
  · cases hp : ((!ic) && op)
    · rw [option_stage_idle ic op input_status st hp]
      exact h0
    · have hic : ic = false := by cases ic <;> simp_all
      have hop : op = true := by cases op <;> simp_all
      subst hic hop
      rw [option_stage_press]
      show 0 ≤ (if st.mode_ire < 5 then st.mode_ire + 1 else 0)
      split_ifs <;> omega
  · cases hp : ((!ic) && op)
    · rw [option_stage_idle ic op input_status st hp]
      exact h5
    · have hic : ic = false := by cases ic <;> simp_all
      have hop : op = true := by cases op <;> simp_all
      subst hic hop
      rw [option_stage_press]
      show (if st.mode_ire < 5 then st.mode_ire + 1 else 0) ≤ 5
      split_ifs <;> omega
  · rw [option_stage_mode7 ic op input_status st h0 h5]
    exact hb

theorem input_cycler_mode_in_range (activity input_status : Nat) (st : State)
    (h : mode_in_range st) : mode_in_range (input_cycler activity input_status st) := by
  obtain ⟨h0, h5, hb⟩ := h
  have hm : (input_cycler activity input_status st).mode_ire = st.mode_ire := by
    have e := congrArg State.mode_ire (input_cycler_skeleton activity input_status st)
    exact e
  refine ⟨by rw [hm]; exact h0, by rw [hm]; exact h5, ?_⟩
  rw [input_cycler_mode7 activity input_status st (by omega)]
  exact hb

theorem chroma_stage_mode_in_range (a b : Nat) (st : State)
    (h : mode_in_range st) : mode_in_range (chroma_stage a b st) := by
  obtain ⟨h0, h5, hb⟩ := h
  have hm : (chroma_stage a b st).mode_ire = st.mode_ire := by
    have e := congrArg State.mode_ire (chroma_stage_skeleton a b st)
    exact e
  exact ⟨by rw [hm]; exact h0, by rw [hm]; exact h5, by rw [chroma_stage_mode7]; exact hb⟩

theorem noise_reduction_stage_mode_in_range (ic op : Bool) (st : State)
    (h : mode_in_range st) : mode_in_range (noise_reduction_stage ic op st) := by
  obtain ⟨h0, h5, hb⟩ := h
  have hm : (noise_reduction_stage ic op st).mode_ire = st.mode_ire := by
    have e := congrArg State.mode_ire (noise_reduction_stage_skeleton ic op st)
    exact e
  exact ⟨by rw [hm]; exact h0, by rw [hm]; exact h5,
    by rw [noise_reduction_stage_mode7]; exact hb⟩

theorem output_format_stage_mode_in_range (ic op : Bool) (input_status : Nat) (st : State)
    (h : mode_in_range st) : mode_in_range (output_format_stage ic op input_status st) := by
  obtain ⟨h0, h5, hb⟩ := h
  have hm : (output_format_stage ic op input_status st).mode_ire = st.mode_ire := by
    have e := congrArg State.mode_ire (output_format_stage_skeleton ic op input_status st)
    exact e
  exact ⟨by rw [hm]; exact h0, by rw [hm]; exact h5,
    by rw [output_format_stage_mode7]; exact hb⟩

theorem led_stage_mode_in_range (st : State)
    (h : mode_in_range st) : mode_in_range (led_stage st) := by
  obtain ⟨h0, h5, hb⟩ := h
  have hm : (led_stage st).mode_ire = st.mode_ire := by
    have e := congrArg State.mode_ire (led_stage_skeleton st)
    exact e
  exact ⟨by rw [hm]; exact h0, by rw [hm]; exact h5, by rw [led_stage_bus]; exact hb⟩

theorem reconciler_stage_mode_in_range (intrq : Bool) (n1 n3 input_status : Nat) (st : State)
    (h : mode_in_range st) : mode_in_range (reconciler_stage intrq n1 n3 input_status st) := by
  obtain ⟨h0, h5, hb⟩ := h
  have hm : (reconciler_stage intrq n1 n3 input_status st).mode_ire = st.mode_ire := by
    have e := congrArg State.mode_ire (reconciler_stage_skeleton intrq n1 n3 input_status st)
    exact e
  exact ⟨by rw [hm]; exact h0, by rw [hm]; exact h5,
    by rw [reconciler_stage_mode7]; exact hb⟩

theorem main_loop_body_mode_in_range (i : LoopInput) (st : State)
    (h : mode_in_range st) : mode_in_range (main_loop_body i st) := by
  have h7 := reconciler_stage_mode_in_range i.intrq i.new_status1 i.new_status3
    i.reconciler_input_status _
    (led_stage_mode_in_range _
      (output_format_stage_mode_in_range i.input_change_pressed i.option_pressed
        i.button_input_status _
        (option_stage_mode_in_range i.input_change_pressed i.option_pressed
          i.button_input_status _
          (noise_reduction_stage_mode_in_range i.input_change_pressed i.option_pressed _
            (chroma_stage_mode_in_range i.chroma_status1_a i.chroma_status1_b _
              (input_cycler_mode_in_range i.activity_status1 i.cycler_input_status st h))))))
  obtain ⟨h0, h5, hb⟩ := h7
  refine ⟨h0, h5, ?_⟩
  show (List.filter is_mode7_write (_ ++ [Event.delay_ms 10])) = []
  rw [List.filter_append, hb]
  simp [is_mode7_write]

theorem main_loop_mode_in_range (ins : List LoopInput) (st : State)
    (h : mode_in_range st) : mode_in_range (main_loop ins st) := by
  induction ins generalizing st with
  | nil => exact h
  | cons i rest ih => exact ih _ (main_loop_body_mode_in_range i st h)

theorem main_startup_mode_in_range (settings : KoryuuSettings) (input_status : Nat) :
    mode_in_range (main_startup settings input_status) := by
  have hm : (main_startup settings input_status).mode_ire = 0 := by
    unfold main_startup settings_writeback
    simp only [setup_video_explicit]
    split_ifs <;> rfl
  refine ⟨by rw [hm], by rw [hm]; norm_num, ?_⟩
  have key : ∀ (u : State) (i : PhysInput) (x : Nat), u.mode_ire = 0 →
      (setup_video_events i x u).filter is_mode7_write = [] :=
    fun u i x hu => setup_video_events_mode7 i x u (by rw [hu]; norm_num)
  unfold main_startup settings_writeback
  simp only [setup_video_explicit]
  split_ifs <;>
    simp [delay_ms, I2C_WRITE, emit, power_on, List.filter_append, is_mode7_write, key,
      encoder_address, decoder_address]

theorem main_mode_in_range (settings : KoryuuSettings) (input_status : Nat)
    (ins : List LoopInput) : mode_in_range (main settings input_status ins) :=
  main_loop_mode_in_range ins _ (main_startup_mode_in_range settings input_status)

/-! ## The option indicator is never read -/

theorem setup_video_events_congr (input : PhysInput) (input_status : Nat) (s t : State)
    (h0 : s.mode_ire = t.mode_ire)
    (h1 : s.disable_freerun = t.disable_freerun) (h2 : s.freerun_status = t.freerun_status)
    (h3 : s.component_output = t.component_output) (h4 : s.rgb_color = t.rgb_color) :
    setup_video_events input input_status s = setup_video_events input input_status t := by
  unfold setup_video_events
  rw [h0, h1, h2, setup_encoder_events_congr false input_status s t h1 h2 h3 h4]

theorem input_cycler_led_OPT (activity input_status : Nat) (st : State) :
    without_led_OPT (input_cycler activity input_status st) =
      without_led_OPT (input_cycler activity input_status (without_led_OPT st)) := by
  have key : ∀ (i : PhysInput) (x : Nat) (u v : State), u.mode_ire = v.mode_ire →
      u.disable_freerun = v.disable_freerun → u.freerun_status = v.freerun_status →
      u.component_output = v.component_output → u.rgb_color = v.rgb_color →
      setup_video_events i x u = setup_video_events i x v :=
    fun i x u v a b c d e => setup_video_events_congr i x u v a b c d e
  unfold input_cycler
  simp only [I2C_READ_ONE, emit, without_led_OPT]
  split_ifs
  · rfl
  · cases hc : st.curr_input <;> simp only [setup_video_explicit] <;>
      simp only [State.mk.injEq, true_and, and_true, and_self] <;>
      (try rw [key _ _ _ _ rfl rfl rfl rfl rfl]) <;> rfl
  · rfl

theorem reconcile_noise_reduction_explicit (n1 n3 input_status : Nat) (st : State) :
    reconcile_noise_reduction n1 n3 input_status st =
      if (reconcile_classify n1 n3 st).2 then
        (if outputs_disabled st.disable_freerun
            (reconcile_classify n1 n3 st).1.freerun_status then st.noise_reduction else 0)
      else st.noise_reduction := by
  have hfst := reconcile_classify_fst n1 n3 st
  unfold reconcile_noise_reduction reconcile
  simp only []
  split_ifs with h1 h2 h3 h4 <;>
    simp_all [setup_encoder_explicit, clear_interrupts_explicit]

theorem chroma_stage_led_OPT (a b : Nat) (st : State) :
    without_led_OPT (chroma_stage a b st) =
      without_led_OPT (chroma_stage a b (without_led_OPT st)) := by
  unfold chroma_stage
  simp only [I2C_READ_ONE, I2C_WRITE, emit, without_led_OPT]
  split_ifs <;> rfl

theorem noise_reduction_stage_led_OPT (ic op : Bool) (st : State) :
    without_led_OPT (noise_reduction_stage ic op st) =
      without_led_OPT (noise_reduction_stage ic op (without_led_OPT st)) := by
  unfold noise_reduction_stage
  simp only [I2C_WRITE, emit, without_led_OPT]
  split_ifs
  · split <;> rfl
  · rfl

theorem option_stage_led_OPT (ic op : Bool) (input_status : Nat) (st : State) :
    without_led_OPT (option_stage ic op input_status st) =
      without_led_OPT (option_stage ic op input_status (without_led_OPT st)) := by
  cases hp : ((!ic) && op)
  · rw [option_stage_idle ic op input_status st hp, option_stage_idle ic op input_status _ hp]
    rfl
  · have hic : ic = false := by cases ic <;> simp_all
    have hop : op = true := by cases op <;> simp_all
    subst hic hop
    rw [option_stage_press, option_stage_press]
    simp only [without_led_OPT, State.mk.injEq, true_and, and_true, and_self]
    congr 1

theorem output_format_stage_led_OPT (ic op : Bool) (input_status : Nat) (st : State) :
    without_led_OPT (output_format_stage ic op input_status st) =
      without_led_OPT (output_format_stage ic op input_status (without_led_OPT st)) := by
  cases hp : (ic && op)
  · rw [output_format_stage_idle ic op input_status st hp,
      output_format_stage_idle ic op input_status _ hp]
    rfl
  · have hic : ic = true := by cases ic <;> simp_all
    have hop : op = true := by cases op <;> simp_all
    subst hic hop
    rw [output_format_stage_press, output_format_stage_press]
    simp only [without_led_OPT, State.mk.injEq, true_and, and_true, and_self]
    congr 1

theorem led_stage_led_OPT (st : State) :
    without_led_OPT (led_stage st) = without_led_OPT (led_stage (without_led_OPT st)) := by
  unfold led_stage
  simp only [without_led_OPT]
  split_ifs <;> rfl

theorem reconciler_stage_led_OPT (intrq : Bool) (n1 n3 input_status : Nat) (st : State) :
    without_led_OPT (reconciler_stage intrq n1 n3 input_status st) =
      without_led_OPT (reconciler_stage intrq n1 n3 input_status (without_led_OPT st)) := by
  unfold reconciler_stage
  simp only [reconcile_eq, reconcile_bus_explicit, reconcile_noise_reduction_explicit,
    reconcile_classify_bus_explicit, reconcile_classify_snd, reconcile_classify_fst,
    lock_recomputed, without_led_OPT]
  split_ifs <;> simp only [State.mk.injEq, true_and, and_true, and_self] <;> rfl

theorem comp_led_OPT (f g : State → State)
    (hf : ∀ s, without_led_OPT (f s) = without_led_OPT (f (without_led_OPT s)))
    (hg : ∀ s, without_led_OPT (g s) = without_led_OPT (g (without_led_OPT s))) (s : State) :
    without_led_OPT (g (f s)) = without_led_OPT (g (f (without_led_OPT s))) := by
  rw [hg (f s), hf s, ← hg (f (without_led_OPT s))]

theorem main_loop_body_led_OPT (i : LoopInput) (st : State) :
    without_led_OPT (main_loop_body i st) =
      without_led_OPT (main_loop_body i (without_led_OPT st)) := by
  unfold main_loop_body
  exact comp_led_OPT _ (delay_ms 10)
    (comp_led_OPT _ (reconciler_stage i.intrq i.new_status1 i.new_status3
        i.reconciler_input_status)
      (comp_led_OPT _ led_stage
        (comp_led_OPT _ (output_format_stage i.input_change_pressed i.option_pressed
            i.button_input_status)
          (comp_led_OPT _ (option_stage i.input_change_pressed i.option_pressed
              i.button_input_status)
            (comp_led_OPT (chroma_stage i.chroma_status1_a i.chroma_status1_b ∘
                input_cycler i.activity_status1 i.cycler_input_status)
              (noise_reduction_stage i.input_change_pressed i.option_pressed)
              (comp_led_OPT (input_cycler i.activity_status1 i.cycler_input_status)
                (chroma_stage i.chroma_status1_a i.chroma_status1_b)
                (input_cycler_led_OPT _ _) (chroma_stage_led_OPT _ _))
              (noise_reduction_stage_led_OPT _ _))
            (option_stage_led_OPT _ _ _))
          (output_format_stage_led_OPT _ _ _))
        led_stage_led_OPT)
      (reconciler_stage_led_OPT _ _ _ _))
    (fun _ => rfl) st

theorem main_loop_led_OPT (ins : List LoopInput) (st : State) :
    without_led_OPT (main_loop ins st) = without_led_OPT (main_loop ins (without_led_OPT st)) := by
  induction ins generalizing st with
  | nil => rfl
  | cons i rest ih =>
    show without_led_OPT (main_loop rest (main_loop_body i st)) =
      without_led_OPT (main_loop rest (main_loop_body i (without_led_OPT st)))
    rw [ih (main_loop_body i st), main_loop_body_led_OPT i st,
      ← ih (main_loop_body i (without_led_OPT st))]

theorem main_startup_led_OPT (settings : KoryuuSettings) (input_status : Nat) (b : Bool) :
    without_led_OPT
        (main_startup { settings with settings := { settings.settings with smoothing := b } }
          input_status) =
      without_led_OPT (main_startup settings input_status) := by
  unfold main_startup
  simp only [setup_video_explicit]
  rfl

theorem main_led_OPT (settings : KoryuuSettings) (input_status : Nat) (b : Bool)
    (ins : List LoopInput) :
    without_led_OPT
        (main { settings with settings := { settings.settings with smoothing := b } }
          input_status ins) =
      without_led_OPT (main settings input_status ins) := by
  unfold main
  rw [main_loop_led_OPT, main_startup_led_OPT, ← main_loop_led_OPT]

/-! ## The claims -/

/-- C1: for every lock state, every flag value and every pair of apply flags,
`apply_output_settings` disables outputs exactly when the flag is set and the
lock state is not locked.  The decoder, if applied, gets its output control
written, tristated when outputs are disabled and driving otherwise, with VBI
enabled; the encoder, if applied, gets 0x01 written to register 0x00 when
outputs are disabled and 0x1e otherwise; nothing else changes, and the
function returns true exactly when outputs were disabled and the encoder was
applied. -/
theorem apply_output_settings_policy (L : FreerunStatus) (d apply_decoder apply_encoder : Bool)
    (st : State) :
    apply_output_settings d apply_decoder apply_encoder { st with freerun_status := L } =
      ({ st with
          freerun_status := L
          bus := st.bus
            ++ (if apply_decoder then
                  [Event.decoder (DecoderCall.set_output_control (outputs_disabled d L) true)]
                else [])
            ++ (if apply_encoder then
                  [Event.i2c_write encoder_address 0x00
                    (if outputs_disabled d L then 0x01 else 0x1e)]
                else []) },
       outputs_disabled d L && apply_encoder) := by
  cases d <;> cases apply_decoder <;> cases apply_encoder <;> cases L <;>
    simp [apply_output_settings, outputs_disabled, I2C_WRITE, decoder_call, emit]

/-- C2: free-run wins over the lock bit.  For every prior state and every
snapshot whose status register 3 has the free-run bit 0x10 set, the lock state
after the reconciler block is running free, whatever status register 1 says. -/
theorem reconcile_freerun_wins (st : State) (new_status1 new_status3 input_status : Nat)
    (h : bit_set new_status3 0x10 = true) :
    (reconcile new_status1 new_status3 input_status st).freerun_status =
      FREERUN_STATUS_RUNNING_FREE := by
  rw [reconcile_eq]
  simp [lock_classification, bit_set_mod_256, h]

theorem reconcile_freerun_wins_witness :
    bit_set 0x11 0x10 = true ∧
      (reconcile 0x01 0x11 0x11 (main sample_settings 0 [plain_pass true 0x01 0x00])).freerun_status
        = FREERUN_STATUS_RUNNING_FREE :=
  ⟨by decide, reconcile_freerun_wins _ 0x01 0x11 0x11 (by decide)⟩

/-- C3: from running free, a reconciler block whose snapshot has the free-run
bit clear and the lock bit set moves the lock state to locked and raises
`encoder_setup_needed`; a second block reading the same snapshot keeps the
state locked and does not raise it. -/
theorem reconcile_lock_acquired_once (st : State) (new_status1 new_status3 is1 is2 : Nat)
    (h0 : st.freerun_status = FREERUN_STATUS_RUNNING_FREE)
    (hf : bit_set new_status3 0x10 = false) (hl : bit_set new_status1 0x01 = true) :
    (reconcile_classify new_status1 new_status3 st).2 = true ∧
    (reconcile new_status1 new_status3 is1 st).freerun_status = FREERUN_STATUS_LOCKED ∧
    (reconcile_classify new_status1 new_status3
      (reconcile new_status1 new_status3 is1 st)).2 = false ∧
    (reconcile new_status1 new_status3 is2
      (reconcile new_status1 new_status3 is1 st)).freerun_status = FREERUN_STATUS_LOCKED := by
  have hf' := (bit_set_mod_256 new_status3 0x10 (by norm_num)).trans hf
  have hl' := (bit_set_mod_256 new_status1 0x01 (by norm_num)).trans hl
  refine ⟨?_, ?_, ?_, ?_⟩
  · rw [reconcile_classify_snd]
    simp [h0, hf']
  · rw [reconcile_eq]
    simp [h0, hf', hl', lock_classification]
  · rw [reconcile_classify_snd, reconcile_eq]
    simp [h0, hf', hl', lock_classification]
  · rw [reconcile_eq, reconcile_eq]
    simp [h0, hf', hl', lock_classification]

theorem reconcile_lock_acquired_once_witness :
    (main sample_settings 0 [plain_pass true 0x00 0x10]).freerun_status
        = FREERUN_STATUS_RUNNING_FREE ∧
      bit_set 0x00 0x10 = false ∧ bit_set 0x01 0x01 = true ∧
      (reconcile_classify 0x01 0x00 (main sample_settings 0 [plain_pass true 0x00 0x10])).2
        = true ∧
      (reconcile_classify 0x01 0x00
        (reconcile 0x01 0x00 0x00 (main sample_settings 0 [plain_pass true 0x00 0x10]))).2
        = false :=
  have h := reconcile_lock_acquired_once (main sample_settings 0 [plain_pass true 0x00 0x10])
    0x01 0x00 0x00 0x00 (by decide) (by decide) (by decide)
  ⟨by decide, by decide, by decide, h.1, h.2.2.1⟩

/-- C4, as the code has it: starting from idle counter 0, passes without
signal activity leave the active input alone as long as there are at most 21
of them, and after n such passes with 22 ≤ n ≤ 43 the active input has
advanced exactly one step in the cyclic order. -/
theorem main_loop_advances_on_pass_22 (ins : List LoopInput) (st : State) (nxt : Input)
    (habs : ∀ i ∈ ins, activity_absent i) (h0 : st.input_timer = 0)
    (hn : cyclic_successor st.curr_input = some nxt) :
    (ins.length ≤ 21 → (main_loop ins st).curr_input = st.curr_input) ∧
      (22 ≤ ins.length → ins.length ≤ 43 → (main_loop ins st).curr_input = nxt) := by
  constructor
  · intro hlen
    exact (main_loop_idle ins st habs (by rw [h0]; omega)).1
  · intro hlo hhi
    have hsplit : ins = ins.take 21 ++ ins.drop 21 := (List.take_append_drop 21 ins).symm
    have htake : (ins.take 21).length = 21 := by
      rw [List.length_take]
      omega
    have hdrop : (ins.drop 21).length = ins.length - 21 := List.length_drop 21 ins
    cases hd : ins.drop 21 with
    | nil =>
      rw [hd] at hdrop
      simp only [List.length_nil] at hdrop
      omega
    | cons x rest =>
      rw [hd] at hdrop hsplit
      simp only [List.length_cons] at hdrop
      have hx : x ∈ ins := by
        rw [hsplit]
        simp
      have hrest : ∀ j ∈ rest, activity_absent j := by
        intro j hj
        apply habs
        rw [hsplit]
        simp [hj]
      have htk : ∀ j ∈ ins.take 21, activity_absent j :=
        fun j hj => habs j (List.mem_of_mem_take hj)
      have h1 := main_loop_idle (ins.take 21) st htk (by rw [h0, htake]; norm_num)
      rw [h0, htake] at h1
      have h2 := main_loop_body_switch x (main_loop (ins.take 21) st) nxt (habs x hx)
        (by rw [h1.2]; norm_num) (by rw [h1.1]; exact hn)
      have h3 := main_loop_idle rest (main_loop_body x (main_loop (ins.take 21) st)) hrest
        (by rw [h2.2]; omega)
      rw [hsplit, main_loop_append]
      show (main_loop rest (main_loop_body x (main_loop (ins.take 21) st))).curr_input = nxt
      rw [h3.1, h2.1]

theorem main_loop_advances_on_pass_22_witness :
    (main_loop (List.replicate 22 (plain_pass true 0x00 0x10))
        (main_startup sample_settings 0)).curr_input = CVBS ∧
      (main_loop (List.replicate 21 (plain_pass true 0x00 0x10))
        (main_startup sample_settings 0)).curr_input = COMPONENT :=
  have h : ∀ n, ∀ i ∈ List.replicate n (plain_pass true 0x00 0x10), activity_absent i := by
    intro n i hi
    rw [List.eq_of_mem_replicate hi]
    unfold activity_absent
    decide
  ⟨(main_loop_advances_on_pass_22 (List.replicate 22 (plain_pass true 0x00 0x10))
      (main_startup sample_settings 0) CVBS (h 22) (by decide) (by decide)).2
      (by decide) (by decide),
   (main_loop_advances_on_pass_22 (List.replicate 21 (plain_pass true 0x00 0x10))
      (main_startup sample_settings 0) CVBS (h 21) (by decide) (by decide)).1
      (by decide)⟩

set_option maxRecDepth 1000000 in
/-- C4 fails as stated: started with the idle counter at 0 on the component
input, 20 passes without signal activity leave the component input active
(the counter stands at 20), and 44 such passes advance the input twice, to
S-Video. -/
theorem main_loop_advances_counterexample :
    (main_startup sample_settings 0).input_timer = 0 ∧
      (main_startup sample_settings 0).curr_input = COMPONENT ∧
      cyclic_successor COMPONENT = some CVBS ∧
      (∀ i ∈ List.replicate 20 (plain_pass true 0x00 0x10),
        bit_set i.activity_status1 0x01 = false) ∧
      (main_loop (List.replicate 20 (plain_pass true 0x00 0x10))
        (main_startup sample_settings 0)).curr_input = COMPONENT ∧
      (main_loop (List.replicate 20 (plain_pass true 0x00 0x10))
        (main_startup sample_settings 0)).input_timer = 20 ∧
      (main_loop (List.replicate 44 (plain_pass true 0x00 0x10))
        (main_startup sample_settings 0)).curr_input = SVIDEO := by
  refine ⟨by decide, by decide, by decide, ?_, by decide, by decide, by decide⟩
  intro i hi
  rw [List.eq_of_mem_replicate hi]
  decide

/-- C5: a poll of the input cycler that finds signal activity present (bit
0x01 of status register 1 set) sets the idle counter to 0 and leaves the active
input, the lock state and the interlace state as they were; nothing but the
counter and the bus record changes. -/
theorem input_cycler_activity_present (st : State) (activity input_status : Nat)
    (h : bit_set activity 0x01 = true) :
    (input_cycler activity input_status st).input_timer = 0 ∧
      (input_cycler activity input_status st).curr_input = st.curr_input ∧
      (input_cycler activity input_status st).freerun_status = st.freerun_status ∧
      (input_cycler activity input_status st).interlace_status = st.interlace_status ∧
      input_cycler activity input_status st =
        { st with input_timer := 0
                  bus := st.bus ++
                    [Event.i2c_read_one decoder_address 0x10 (activity % 256)] } := by
  have e := input_cycler_present st activity input_status h
  refine ⟨?_, ?_, ?_, ?_, e⟩ <;> rw [e]

theorem input_cycler_activity_present_witness :
    bit_set 0x01 0x01 = true ∧
      (input_cycler 0x01 0x00 (main sample_settings 0
        (List.replicate 5 (plain_pass true 0x00 0x10)))).input_timer = 0 ∧
      (main sample_settings 0 (List.replicate 5 (plain_pass true 0x00 0x10))).input_timer = 5 :=
  ⟨by decide,
   (input_cycler_activity_present (main sample_settings 0
      (List.replicate 5 (plain_pass true 0x00 0x10))) 0x01 0x00 (by decide)).1,
   by decide⟩

/-- C6: a poll of the input cycler that finds no signal activity.  With the
idle counter above 20 it resets lock and interlace state to unknown, runs
`setup_video` for the cyclic successor, makes the successor the active input
and resets the counter, and both states are still unknown afterwards; with the
counter at most 20 it adds one to the counter and changes nothing else. -/
theorem input_cycler_activity_absent (st : State) (activity input_status : Nat)
    (h : bit_set activity 0x01 = false) :
    (20 < st.input_timer → ∀ nxt, cyclic_successor st.curr_input = some nxt →
      input_cycler activity input_status st =
        { setup_video (input_to_phys nxt) st.pedestal_enabled false input_status
            { st with interlace_status := INTERLACE_STATUS_UNKNOWN
                      freerun_status := FREERUN_STATUS_UNKNOWN
                      bus := st.bus ++
                        [Event.i2c_read_one decoder_address 0x10 (activity % 256)] }
          with curr_input := nxt
               led_CVBS := decide (nxt ≠ SVIDEO)
               led_YC := decide (nxt ≠ CVBS)
               input_timer := 0 } ∧
      (input_cycler activity input_status st).curr_input = nxt ∧
      (input_cycler activity input_status st).input_timer = 0 ∧
      (input_cycler activity input_status st).freerun_status = FREERUN_STATUS_UNKNOWN ∧
      (input_cycler activity input_status st).interlace_status = INTERLACE_STATUS_UNKNOWN) ∧
    (st.input_timer ≤ 20 →
      input_cycler activity input_status st =
        { st with input_timer := st.input_timer + 1
                  bus := st.bus ++
                    [Event.i2c_read_one decoder_address 0x10 (activity % 256)] }) := by
  constructor
  · intro ht nxt hn
    have e := input_cycler_switch st activity input_status nxt h ht hn
    refine ⟨e, ?_, ?_, ?_, ?_⟩ <;> rw [e] <;> simp only [setup_video_eq]
  · intro ht
    exact input_cycler_idle st activity input_status h ht

set_option maxRecDepth 1000000 in
theorem input_cycler_activity_absent_witness :
    (main sample_settings 0 (List.replicate 21 (plain_pass true 0x00 0x10))).input_timer = 21 ∧
      (main sample_settings 0 (List.replicate 21 (plain_pass true 0x00 0x10))).curr_input
        = COMPONENT ∧
      (input_cycler 0x00 0x10 (main sample_settings 0
        (List.replicate 21 (plain_pass true 0x00 0x10)))).curr_input = CVBS ∧
      (input_cycler 0x00 0x10 (main sample_settings 0
        (List.replicate 21 (plain_pass true 0x00 0x10)))).freerun_status
        = FREERUN_STATUS_UNKNOWN ∧
      (input_cycler 0x00 0x10 (main_startup sample_settings 0)).input_timer = 1 :=
  have a := (input_cycler_activity_absent (main sample_settings 0
    (List.replicate 21 (plain_pass true 0x00 0x10))) 0x00 0x10 (by decide)).1
    (by decide) CVBS (by decide)
  have b := (input_cycler_activity_absent (main_startup sample_settings 0) 0x00 0x10
    (by decide)).2 (by decide)
  ⟨by decide, by decide, a.2.1, a.2.2.2.1, by rw [b]; decide⟩

/-- C7: in every run of the program (startup followed by any number of passes
of the main loop) the settings are written back exactly once if the record is
dirty and not downgrading, and never otherwise; so a downgrading record is
never written, whatever `is_dirty` says. -/
theorem settings_written_back_iff (settings : KoryuuSettings) (input_status : Nat)
    (inputs : List LoopInput) :
    (main settings input_status inputs).bus.filter is_settings_write =
        (if settings.is_dirty && !settings.is_downgrading then [Event.settings_write] else []) ∧
      (Event.settings_write ∈ (main settings input_status inputs).bus ↔
        (settings.is_dirty = true ∧ settings.is_downgrading = false)) := by
  have h : (main settings input_status inputs).bus.filter is_settings_write =
      (if settings.is_dirty && !settings.is_downgrading then [Event.settings_write] else []) := by
    unfold main
    rw [main_loop_settings_writes, main_startup_settings_writes]
  refine ⟨h, ?_⟩
  have hm : Event.settings_write ∈ (main settings input_status inputs).bus ↔
      Event.settings_write ∈ (main settings input_status inputs).bus.filter is_settings_write := by
    rw [List.mem_filter]
    simp [is_settings_write]
  rw [hm, h]
  cases settings.is_dirty <;> cases settings.is_downgrading <;> simp

/-- C9, as the code has it: after the reconciler block the lock state is the
classification of the snapshot just read, except that a prior locked state is
kept whenever the free-run bit is clear, whatever the lock bit says. -/
theorem reconcile_lock_state (st : State) (new_status1 new_status3 input_status : Nat) :
    (reconcile new_status1 new_status3 input_status st).freerun_status =
      if st.freerun_status = FREERUN_STATUS_LOCKED ∧ bit_set new_status3 0x10 = false
      then FREERUN_STATUS_LOCKED
      else lock_classification new_status1 new_status3 := by
  rw [reconcile_eq]
  simp only [lock_classification_mod, bit_set_mod_256 new_status3 0x10 (by norm_num)]

/-- C9 fails as stated: the program locks on its first pass; on the second
pass the decoder raises its interrupt and both the free-run bit and the lock
bit read clear, whose classification is unknown, yet the lock state stays
locked. -/
theorem reconcile_lock_state_counterexample :
    (main sample_settings 0 [plain_pass true 0x01 0x00]).freerun_status
        = FREERUN_STATUS_LOCKED ∧
      lock_classification 0x00 0x00 = FREERUN_STATUS_UNKNOWN ∧
      (reconcile 0x00 0x00 0x00
        (main sample_settings 0 [plain_pass true 0x01 0x00])).freerun_status
        = FREERUN_STATUS_LOCKED ∧
      (main sample_settings 0
        [plain_pass true 0x01 0x00, plain_pass false 0x00 0x00]).freerun_status
        = FREERUN_STATUS_LOCKED := by
  decide

/-- C10: after the interlace step the interlace state is interlaced if bit
0x40 of status register 3 is set and progressive if it is clear, so it is
never unknown; the step raises `encoder_setup_needed` exactly when it changed
the state; and the same holds of the state the whole reconciler block leaves. -/
theorem interlace_step_sticky (p : State × Bool) (st : State)
    (new_status1 new_status3 input_status : Nat) :
    (interlace_step p).1.interlace_status =
        (if bit_set p.1.dec_status3 0x40 then INTERLACE_STATUS_INTERLACED
         else INTERLACE_STATUS_PROGRESSIVE) ∧
      (interlace_step p).1.interlace_status ≠ INTERLACE_STATUS_UNKNOWN ∧
      ((interlace_step (p.1, false)).2 = true ↔
        (interlace_step (p.1, false)).1.interlace_status ≠ p.1.interlace_status) ∧
      (interlace_step p).2 =
        (p.2 || decide ((interlace_step p).1.interlace_status ≠ p.1.interlace_status)) ∧
      (reconcile new_status1 new_status3 input_status st).interlace_status =
        (if bit_set new_status3 0x40 then INTERLACE_STATUS_INTERLACED
         else INTERLACE_STATUS_PROGRESSIVE) ∧
      (reconcile new_status1 new_status3 input_status st).interlace_status
        ≠ INTERLACE_STATUS_UNKNOWN := by
  have h1 : (interlace_step p).1.interlace_status = interlace_classification p.1.dec_status3 := by
    rw [interlace_step_fst]
  have h2 : ∀ x, interlace_classification x ≠ INTERLACE_STATUS_UNKNOWN := by
    intro x
    unfold interlace_classification
    split_ifs <;> simp
  have h3 : (reconcile new_status1 new_status3 input_status st).interlace_status =
      interlace_classification new_status3 := by
    rw [reconcile_eq]
    exact interlace_classification_mod new_status3
  refine ⟨h1, ?_, ?_, interlace_step_snd p, h3, ?_⟩
  · rw [h1]
    exact h2 _
  · rw [interlace_step_snd]
    simp
  · rw [h3]
    exact h2 _

/-- C11: the video-standard step of a reconciler block, entered with
`encoder_setup_needed` false.  When the byte read from status register 1
differs from the previous snapshot, the step raises `encoder_setup_needed`
exactly when no standard was recorded yet (`dec_vstd` is 0xff) or the
standard field (bits 4 to 6) differs from that of the previous snapshot, and
it records the new field; when the byte is unchanged it raises nothing and
leaves the recorded standard alone.  So a change outside the standard field,
once a standard is recorded, raises nothing.  The snapshot becomes the byte
read, and the reconciler block applies the step to the byte it reads. -/
theorem video_standard_step_flags (st : State) (n : Nat) (n1 n3 input_status : Nat) :
    (n ≠ st.dec_status1 →
      ((video_standard_step n (st, false)).2 = true ↔
        (st.dec_vstd = 0xff ∨ standard_field n ≠ standard_field st.dec_status1)) ∧
      (video_standard_step n (st, false)).1.dec_vstd = standard_field n) ∧
    (n = st.dec_status1 →
      (video_standard_step n (st, false)).2 = false ∧
      (video_standard_step n (st, false)).1.dec_vstd = st.dec_vstd) ∧
    (n ≠ st.dec_status1 → st.dec_vstd ≠ 0xff →
      standard_field n = standard_field st.dec_status1 →
      (video_standard_step n (st, false)).2 = false) ∧
    (video_standard_step n (st, false)).1.dec_status1 = n ∧
    (reconcile n1 n3 input_status st).dec_vstd =
      (video_standard_step (n1 % 256) (st, false)).1.dec_vstd ∧
    (reconcile n1 n3 input_status st).dec_status1 = n1 % 256 := by
  have hfst := video_standard_step_fst n (st, false)
  have hsnd := video_standard_step_snd n (st, false)
  simp only [standard_field_eq] at hfst hsnd
  refine ⟨?_, ?_, ?_, ?_, ?_, ?_⟩
  · intro hn
    rw [hsnd, hfst]
    simp [hn]
  · intro hn
    rw [hsnd, hfst]
    simp [hn]
  · intro hn hv hf
    rw [hsnd]
    simp [hn, hv, hf]
  · rw [hfst]
  · rw [reconcile_eq, video_standard_step_fst]
  · rw [reconcile_eq]

theorem video_standard_step_flags_witness :
    (0x40 ≠ 0x41 ∧ (4 : Nat) ≠ 0xff ∧ standard_field 0x40 = standard_field 0x41) ∧
      (video_standard_step 0x40
        ({ power_on with dec_status1 := 0x41, dec_vstd := 4 }, false)).2 = false ∧
      ((video_standard_step 0x40 (power_on, false)).2 = true ↔
        (power_on.dec_vstd = 0xff ∨ standard_field 0x40 ≠ standard_field power_on.dec_status1)) :=
  ⟨by decide,
   (video_standard_step_flags { power_on with dec_status1 := 0x41, dec_vstd := 4 } 0x40 0 0 0).2.2.1
      (by decide) (by decide) (by decide),
   ((video_standard_step_flags power_on 0x40 0 0 0).1 (by decide)).1⟩

/-- C12, as the code has it: a reconciler block in which `encoder_setup_needed`
was raised calls `setup_encoder` after the classification; the decoder output
control is written, before that call, exactly when the lock state was
recomputed in the block (the free-run bit disagreed with it or it was
unknown), and not for a change of video standard or interlace state alone;
and when outputs are disabled `setup_encoder` only puts the encoder to sleep. -/
theorem reconcile_reconfiguration (st : State) (n1 n3 input_status : Nat)
    (h : (reconcile_classify n1 n3 st).2 = true) :
    (reconcile n1 n3 input_status st).bus =
        st.bus ++
          [Event.i2c_read_one decoder_address 0x10 (n1 % 256),
           Event.i2c_read_one decoder_address 0x13 (n3 % 256)] ++
          (if lock_recomputed st n3 then
            [Event.decoder (DecoderCall.set_output_control
              (outputs_disabled st.disable_freerun
                (lock_classification (n1 % 256) (n3 % 256))) true)]
          else []) ++
          setup_encoder_events false input_status (reconcile_classify n1 n3 st).1 ++
          (if st.got_interrupt then clear_interrupts_events else []) ∧
      (outputs_disabled st.disable_freerun
          (reconcile n1 n3 input_status st).freerun_status = true →
        setup_encoder_events false input_status (reconcile_classify n1 n3 st).1 =
          [Event.i2c_write encoder_address 0x00 0x01]) := by
  constructor
  · show reconcile_bus n1 n3 input_status st = _
    rw [reconcile_bus_explicit, reconcile_classify_bus_explicit, if_pos h]
  · intro hd
    rw [reconcile_eq] at hd
    unfold setup_encoder_events
    rw [reconcile_classify_fst]
    simp only [Bool.false_eq_true, if_false, List.nil_append]
    rw [if_pos hd]

set_option maxRecDepth 1000000 in
theorem reconcile_reconfiguration_witness :
    (reconcile_classify 0x01 0x00 (main_startup sample_settings 0)).2 = true ∧
      (reconcile 0x01 0x00 0x10 (main_startup sample_settings 0)).bus =
        (main_startup sample_settings 0).bus ++
          [Event.i2c_read_one decoder_address 0x10 0x01,
           Event.i2c_read_one decoder_address 0x13 0x00,
           Event.decoder (DecoderCall.set_output_control false true)] ++
          setup_encoder_events false 0x10
            (reconcile_classify 0x01 0x00 (main_startup sample_settings 0)).1 :=
  have h := (reconcile_reconfiguration (main_startup sample_settings 0) 0x01 0x00 0x10
    (by decide)).1
  ⟨by decide, by rw [h]; decide⟩

set_option maxRecDepth 1000000 in
/-- C12 fails as stated: with outputs to be disabled off lock, the program is
running free after its first pass; on the second pass the decoder raises its
interrupt and the interlace bit has come on.  The reconciler block raises
`encoder_setup_needed`, yet the whole pass writes no decoder output control,
and its encoder setup is the single write that puts the encoder to sleep. -/
theorem reconcile_reconfiguration_counterexample :
    (reconcile_classify 0x00 0x50
      { before_reconciler (plain_pass false 0x00 0x50)
          (main strict_settings 0 [plain_pass true 0x00 0x10]) with
        got_interrupt := true }).2 = true ∧
      (main strict_settings 0 [plain_pass true 0x00 0x10, plain_pass false 0x00 0x50]).bus =
        (main strict_settings 0 [plain_pass true 0x00 0x10]).bus ++
          [Event.i2c_read_one decoder_address 0x10 0x00,
           Event.i2c_read_one decoder_address 0x10 0x00,
           Event.i2c_read_one decoder_address 0x10 0x00,
           Event.i2c_read_one decoder_address 0x10 0x00,
           Event.i2c_read_one decoder_address 0x13 0x50,
           Event.i2c_write encoder_address 0x00 0x01,
           Event.decoder (DecoderCall.select_submap DEC_SUBMAP_INTR_VDP),
           Event.decoder (DecoderCall.interrupt_clear1 true true true true false),
           Event.decoder (DecoderCall.interrupt_clear2 true true true true false),
           Event.decoder (DecoderCall.interrupt_clear3 true true true true true true false),
           Event.decoder (DecoderCall.select_submap DEC_SUBMAP_USER),
           Event.delay_ms 10] := by
  decide

/-- C13, as the code has it: the automatic advance to the next physical input
resets lock and interlace state to unknown and runs `setup_video` for the new
input; a press of the option button alone and a press of both buttons leave
lock and interlace state as they are and run `set_video_range` (option only)
and `setup_encoder`, not `setup_video`. -/
theorem input_cycler_transitions (st : State) (activity input_status : Nat) (nxt : Input) :
    (bit_set activity 0x01 = false → 20 < st.input_timer →
      cyclic_successor st.curr_input = some nxt →
      (input_cycler activity input_status st).freerun_status = FREERUN_STATUS_UNKNOWN ∧
      (input_cycler activity input_status st).interlace_status = INTERLACE_STATUS_UNKNOWN ∧
      (input_cycler activity input_status st).bus =
        st.bus ++ [Event.i2c_read_one decoder_address 0x10 (activity % 256)] ++
          setup_video_events (input_to_phys nxt) input_status
            { st with interlace_status := INTERLACE_STATUS_UNKNOWN
                      freerun_status := FREERUN_STATUS_UNKNOWN }) ∧
    ((option_stage false true input_status st).freerun_status = st.freerun_status ∧
      (option_stage false true input_status st).interlace_status = st.interlace_status ∧
      (option_stage false true input_status st).bus =
        st.bus ++
          (if st.mode_ire < 5 then []
           else [Event.i2c_write encoder_address 0x02 (if st.rgb_color then 0x74 else 0x54)]) ++
          set_video_range_events (if st.mode_ire < 5 then st.mode_ire + 1 else 0) ++
          setup_encoder_events false input_status
            { st with rgb_color := if st.mode_ire < 5 then st.rgb_color else !st.rgb_color }) ∧
    ((output_format_stage true true input_status st).freerun_status = st.freerun_status ∧
      (output_format_stage true true input_status st).interlace_status = st.interlace_status ∧
      (output_format_stage true true input_status st).bus =
        st.bus ++ setup_encoder_events false input_status
          { st with component_output := !st.component_output }) := by
  refine ⟨?_, ?_, ?_⟩
  · intro ha ht hn
    rw [input_cycler_switch st activity input_status nxt ha ht hn]
    simp only [setup_video_explicit]
    refine ⟨trivial, trivial, ?_⟩
    simp only [List.append_assoc, List.append_cancel_left_eq]
    rfl
  · rw [option_stage_press]
    exact ⟨rfl, rfl, rfl⟩
  · rw [output_format_stage_press]
    exact ⟨rfl, rfl, rfl⟩

set_option maxRecDepth 1000000 in
theorem input_cycler_transitions_witness :
    bit_set 0x00 0x01 = false ∧
      20 < (main sample_settings 0 (List.replicate 21 (plain_pass true 0x00 0x10))).input_timer ∧
      (input_cycler 0x00 0x10 (main sample_settings 0
        (List.replicate 21 (plain_pass true 0x00 0x10)))).interlace_status
        = INTERLACE_STATUS_UNKNOWN :=
  ⟨by decide, by decide,
   ((input_cycler_transitions (main sample_settings 0
      (List.replicate 21 (plain_pass true 0x00 0x10))) 0x00 0x10 CVBS).1
      (by decide) (by decide) (by decide)).2.1⟩

set_option maxRecDepth 1000000 in
/-- C13 fails as stated: the program is locked on a progressive signal after
its first pass.  A pass with the option button pressed, and likewise a pass
with both buttons pressed, leaves the lock state locked and the interlace
state progressive when the reconciler stage is reached, and puts on the bus
the reads of the pass, the video-range writes (option only) and the encoder
setup, with none of the decoder set-up of `setup_video`. -/
theorem input_cycler_transitions_counterexample :
    (main sample_settings 0 [plain_pass true 0x01 0x00]).freerun_status
        = FREERUN_STATUS_LOCKED ∧
      (main sample_settings 0 [plain_pass true 0x01 0x00]).interlace_status
        = INTERLACE_STATUS_PROGRESSIVE ∧
      (before_reconciler (option_press 0x01 0x00)
        (main sample_settings 0 [plain_pass true 0x01 0x00])).freerun_status
        = FREERUN_STATUS_LOCKED ∧
      (before_reconciler (option_press 0x01 0x00)
        (main sample_settings 0 [plain_pass true 0x01 0x00])).interlace_status
        = INTERLACE_STATUS_PROGRESSIVE ∧
      (main sample_settings 0 [plain_pass true 0x01 0x00, option_press 0x01 0x00]).bus =
        (main sample_settings 0 [plain_pass true 0x01 0x00]).bus ++
          [Event.i2c_read_one decoder_address 0x10 0x01,
           Event.i2c_read_one decoder_address 0x10 0x01,
           Event.i2c_read_one decoder_address 0x10 0x01] ++
          set_video_range_events 1 ++
          setup_encoder_events false 0x00 (main sample_settings 0 [plain_pass true 0x01 0x00]) ++
          [Event.delay_ms 10] ∧
      (before_reconciler (both_press 0x01 0x00)
        (main sample_settings 0 [plain_pass true 0x01 0x00])).freerun_status
        = FREERUN_STATUS_LOCKED ∧
      (main sample_settings 0 [plain_pass true 0x01 0x00, both_press 0x01 0x00]).bus =
        (main sample_settings 0 [plain_pass true 0x01 0x00]).bus ++
          [Event.i2c_read_one decoder_address 0x10 0x01,
           Event.i2c_read_one decoder_address 0x10 0x01,
           Event.i2c_read_one decoder_address 0x10 0x01] ++
          setup_encoder_events false 0x00
            { main sample_settings 0 [plain_pass true 0x01 0x00] with
                component_output := false } ++
          [Event.delay_ms 10] ∧
      Event.decoder (DecoderCall.set_power_management false true) ∈
        setup_video_events INPUT_CVBS 0x00 (main sample_settings 0 [plain_pass true 0x01 0x00]) ∧
      Event.decoder (DecoderCall.set_power_management false true) ∉
        set_video_range_events 1 ++
          setup_encoder_events false 0x00 (main sample_settings 0 [plain_pass true 0x01 0x00]) := by
  decide

/-- C14, as the code has it: whatever settings record was loaded, the input
that is active when the main loop starts is the component input, the initial
chip setup selects the component input of the decoder, and the record's
`default_input` has no effect on the state the main loop starts in; the
disable-free-run flag equals the record's `disable_free_run`. -/
theorem main_startup_initial_state (settings : KoryuuSettings) (input_status : Nat) (x : Input) :
    (main_startup settings input_status).curr_input = COMPONENT ∧
      (main_startup settings input_status).bus.filter is_select_input =
        [Event.decoder (DecoderCall.select_input INSEL_YPbPr_Ain1_2_3)] ∧
      main_startup { settings with settings := { settings.settings with default_input := x } }
        input_status = main_startup settings input_status ∧
      (main_startup settings input_status).disable_freerun =
        settings.settings.disable_free_run := by
  refine ⟨main_startup_curr_input settings input_status,
    main_startup_select_input settings input_status, rfl, ?_⟩
  unfold main_startup
  simp only [setup_video_explicit]
  rfl

/-- C14 fails as stated: a record whose `default_input` is CVBS starts the
main loop on the component input, with the decoder set up for its component
input and not for CVBS. -/
theorem main_startup_initial_state_counterexample :
    sample_settings.settings.default_input = CVBS ∧
      (main_startup sample_settings 0).curr_input = COMPONENT ∧
      (main_startup sample_settings 0).curr_input ≠ sample_settings.settings.default_input ∧
      Event.decoder (DecoderCall.select_input INSEL_YPbPr_Ain1_2_3)
        ∈ (main_startup sample_settings 0).bus ∧
      Event.decoder (DecoderCall.select_input INSEL_CVBS_Ain1)
        ∉ (main_startup sample_settings 0).bus := by
  decide

/-- C15: on a snapshot with neither the free-run bit nor the lock bit, a
reconciler block started with the lock state unknown raises
`encoder_setup_needed` and leaves the lock state unknown, and an unknown lock
state makes the reconciler stage enter the block.  So, started with the lock
state unknown, passes of the main loop in which the reconciler reads neither
bit leave the lock state unknown, however many there are, and in every
further such pass the block is entered, raises `encoder_setup_needed` and runs
`setup_encoder` again. -/
theorem reconcile_unknown_reruns (ins : List LoopInput) (i : LoopInput) (st : State)
    (input_status : Nat) (intrq : Bool)
    (h0 : st.freerun_status = FREERUN_STATUS_UNKNOWN)
    (hins : ∀ j ∈ ins, neither_freerun_nor_lock j) (hi : neither_freerun_nor_lock i) :
    (reconcile_classify i.new_status1 i.new_status3 st).2 = true ∧
      (reconcile i.new_status1 i.new_status3 input_status st).freerun_status
        = FREERUN_STATUS_UNKNOWN ∧
      reconciler_stage intrq i.new_status1 i.new_status3 input_status st =
        reconcile i.new_status1 i.new_status3 input_status { st with got_interrupt := !intrq } ∧
      (main_loop ins st).freerun_status = FREERUN_STATUS_UNKNOWN ∧
      (before_reconciler i (main_loop ins st)).freerun_status = FREERUN_STATUS_UNKNOWN ∧
      main_loop_body i (main_loop ins st) =
        delay_ms 10 (reconcile i.new_status1 i.new_status3 i.reconciler_input_status
          { before_reconciler i (main_loop ins st) with got_interrupt := !i.intrq }) ∧
      (reconcile_classify i.new_status1 i.new_status3
        { before_reconciler i (main_loop ins st) with got_interrupt := !i.intrq }).2 = true ∧
      (main_loop_body i (main_loop ins st)).bus =
        (before_reconciler i (main_loop ins st)).bus ++
          [Event.i2c_read_one decoder_address 0x10 (i.new_status1 % 256),
           Event.i2c_read_one decoder_address 0x13 (i.new_status3 % 256),
           Event.decoder (DecoderCall.set_output_control
             (before_reconciler i (main_loop ins st)).disable_freerun true)] ++
          setup_encoder_events false i.reconciler_input_status
            (reconcile_classify i.new_status1 i.new_status3
              { before_reconciler i (main_loop ins st) with got_interrupt := !i.intrq }).1 ++
          (if i.intrq then [] else clear_interrupts_events) ++
          [Event.delay_ms 10] ∧
      (main_loop_body i (main_loop ins st)).freerun_status = FREERUN_STATUS_UNKNOWN := by
  have hs := main_loop_unknown ins st h0 hins
  have hb : (before_reconciler i (main_loop ins st)).freerun_status = FREERUN_STATUS_UNKNOWN := by
    rcases before_reconciler_freerun_status i (main_loop ins st) with h | h
    · rw [h, hs]
    · exact h
  have hf := (bit_set_mod_256 i.new_status3 0x10 (by norm_num)).trans hi.1
  have hl := (bit_set_mod_256 i.new_status1 0x01 (by norm_num)).trans hi.2
  have hbody := main_loop_body_eq i (main_loop ins st)
  rw [reconciler_stage_unknown _ _ _ _ _ hb] at hbody
  have hflag : (reconcile_classify i.new_status1 i.new_status3
      { before_reconciler i (main_loop ins st) with got_interrupt := !i.intrq }).2 = true := by
    rw [reconcile_classify_snd]
    simp [hb]
  refine ⟨?_, ?_, reconciler_stage_unknown _ _ _ _ _ h0, hs, hb, hbody, hflag, ?_, ?_⟩
  · rw [reconcile_classify_snd]
    simp [h0]
  · rw [reconcile_eq]
    simp [h0, lock_classification, hf, hl]
  · rw [hbody]
    show (reconcile_bus _ _ _ _) ++ [Event.delay_ms 10] = _
    rw [reconcile_bus_explicit, reconcile_classify_bus_explicit, if_pos hflag]
    cases hq : i.intrq <;>
      simp [lock_recomputed, hb, lock_classification, hf, hl, outputs_disabled]
  · have h1 := main_loop_unknown (ins ++ [i]) st h0 (by
      intro j hj
      rcases List.mem_append.mp hj with h | h
      · exact hins j h
      · rw [List.mem_singleton.mp h]
        exact hi)
    rw [main_loop_append] at h1
    exact h1

theorem reconcile_unknown_reruns_witness :
    (main_startup sample_settings 0).freerun_status = FREERUN_STATUS_UNKNOWN ∧
      (bit_set 0x00 0x10 = false ∧ bit_set 0x00 0x01 = false) ∧
      (main_loop_body (plain_pass true 0x00 0x00)
        (main_loop [plain_pass true 0x00 0x00, plain_pass true 0x00 0x00]
          (main_startup sample_settings 0))).freerun_status = FREERUN_STATUS_UNKNOWN ∧
      (reconcile_classify 0x00 0x00
        { before_reconciler (plain_pass true 0x00 0x00)
            (main_loop [plain_pass true 0x00 0x00, plain_pass true 0x00 0x00]
              (main_startup sample_settings 0)) with got_interrupt := false }).2 = true :=
  have hp : neither_freerun_nor_lock (plain_pass true 0x00 0x00) := ⟨by decide, by decide⟩
  have h := reconcile_unknown_reruns [plain_pass true 0x00 0x00, plain_pass true 0x00 0x00]
    (plain_pass true 0x00 0x00) (main_startup sample_settings 0) 0x00 true (by decide)
    (by
      intro j hj
      simp only [List.mem_cons, List.mem_singleton, List.not_mem_nil, or_false, or_self] at hj
      rw [hj]
      exact hp)
    hp
  ⟨by decide, ⟨by decide, by decide⟩, h.2.2.2.2.2.2.2.2, h.2.2.2.2.2.2.1⟩

/-- C16: in every run of the program `mode_ire` lies in 0..5, and the write
that only the seventh case of `set_video_range` performs (0x62 to encoder
register 0xA1) never reaches the bus.  On a state with `mode_ire` m in 0..5 a
press of the option button alone sets `mode_ire` to (m + 1) mod 6, toggles
`rgb_color` exactly when m is 5, and leaves the active input alone; six
presses restore `mode_ire` and toggle `rgb_color` once. -/
theorem mode_ire_in_range (settings : KoryuuSettings) (startup_status : Nat)
    (ins : List LoopInput) (st : State) (input_status : Nat) :
    (0 ≤ (main settings startup_status ins).mode_ire ∧
      (main settings startup_status ins).mode_ire ≤ 5) ∧
    Event.i2c_write encoder_address 0xA1 0x62 ∉ (main settings startup_status ins).bus ∧
    (0 ≤ st.mode_ire → st.mode_ire ≤ 5 →
      (option_stage false true input_status st).mode_ire = (st.mode_ire + 1) % 6 ∧
      (option_stage false true input_status st).rgb_color =
        (if st.mode_ire = 5 then !st.rgb_color else st.rgb_color) ∧
      (option_stage false true input_status st).curr_input = st.curr_input ∧
      ((option_stage false true input_status)^[6] st).mode_ire = st.mode_ire ∧
      ((option_stage false true input_status)^[6] st).rgb_color = !st.rgb_color) := by
  obtain ⟨h0, h5, hb⟩ := main_mode_in_range settings startup_status ins
  refine ⟨⟨h0, h5⟩, ?_, ?_⟩
  · intro hmem
    have hf : Event.i2c_write encoder_address 0xA1 0x62 ∈
        (main settings startup_status ins).bus.filter is_mode7_write := by
      rw [List.mem_filter]
      exact ⟨hmem, by simp [is_mode7_write]⟩
    rw [hb] at hf
    exact List.not_mem_nil _ hf
  · intro g0 g5
    have hstep := option_stage_press_step input_status st
    have hsix := option_stage_press_iterate input_status 6 st
    rw [option_press_step_six _ _ g0 g5] at hsix
    have h1 := congrArg Prod.fst hstep
    have h2 := congrArg Prod.snd hstep
    simp only [option_press_step] at h1 h2
    refine ⟨?_, ?_, option_stage_curr_input false true input_status st,
      congrArg Prod.fst hsix, congrArg Prod.snd hsix⟩
    · rw [h1]
      split_ifs <;> omega
    · rw [h2]
      by_cases hm : st.mode_ire < 5
      · have : st.mode_ire ≠ 5 := by omega
        simp [hm, this]
      · have : st.mode_ire = 5 := by omega
        simp [this]

set_option maxRecDepth 1000000 in
theorem mode_ire_in_range_witness :
    (main sample_settings 0 (List.replicate 5 (option_press 0x01 0x00))).mode_ire = 5 ∧
      (option_stage false true 0x00
        (main sample_settings 0 (List.replicate 5 (option_press 0x01 0x00)))).mode_ire = (5 + 1) % 6 ∧
      (option_stage false true 0x00
        (main sample_settings 0 (List.replicate 5 (option_press 0x01 0x00)))).rgb_color = false ∧
      (main sample_settings 0 (List.replicate 6 (option_press 0x01 0x00))).mode_ire = 0 ∧
      (main sample_settings 0 (List.replicate 6 (option_press 0x01 0x00))).rgb_color = false :=
  have h := (mode_ire_in_range sample_settings 0 [] (main sample_settings 0
    (List.replicate 5 (option_press 0x01 0x00))) 0x00).2.2 (by decide) (by decide)
  ⟨by decide, by rw [h.1]; decide, by rw [h.2.1]; decide, by decide, by decide⟩

/-- C17: `setup_video` ignores its pedestal and smoothing arguments.  Two calls
that differ only in them end in the same state, bus record included, and that
record is the one fixed by the physical input, the byte read and the starting
state.  So the persisted smoothing setting has no effect on the chip
configuration: two runs of the program on records that differ only in it
agree, after startup and after any passes of the main loop, on the bus record
and on everything else but the option indicator. -/
theorem setup_video_ignores_pedestal_smoothing (input : PhysInput)
    (pedestal1 smoothing1 pedestal2 smoothing2 : Bool) (input_status : Nat) (st : State)
    (settings : KoryuuSettings) (b : Bool) (ins : List LoopInput) :
    setup_video input pedestal1 smoothing1 input_status st =
        setup_video input pedestal2 smoothing2 input_status st ∧
      (setup_video input pedestal1 smoothing1 input_status st).bus =
        st.bus ++ setup_video_events input input_status st ∧
      (main_startup { settings with settings := { settings.settings with smoothing := b } }
        input_status).bus = (main_startup settings input_status).bus ∧
      without_led_OPT
          (main { settings with settings := { settings.settings with smoothing := b } }
            input_status ins) =
        without_led_OPT (main settings input_status ins) ∧
      (main { settings with settings := { settings.settings with smoothing := b } }
        input_status ins).bus = (main settings input_status ins).bus := by
  refine ⟨rfl, ?_, ?_, main_led_OPT settings input_status b ins, ?_⟩
  · rw [setup_video_explicit]
  · unfold main_startup
    simp only [setup_video_explicit]
    rfl
  · have h := congrArg State.bus (main_led_OPT settings input_status b ins)
    exact h

end Koryuu
